import Mathlib

/-!
# threads-clone auth-service: identity resolution and OAuth state cache

A shallow embedding of the Go auth service
(`backend/auth-service/internal/{handlers,services,database,models,utils}`)
together with theorems about it.

Conventions of the embedding:

* Go strings are Lean `String`s (valid UTF-8 text).
* `time.Time` is an `Int` count of nanoseconds; `time.Duration` likewise.
* A Go `map[string]time.Time` is an association list; reads take the first
  binding of a key, `delete` removes every binding of a key.
* Stateful code is written in state-passing style: a method that touches the
  OAuth state map or the database returns its result paired with the new state.
-/

/-! ## `time` -/

/-- Instants (`time.Time`), in nanoseconds. -/
abbrev Time := Int

/-- Durations (`time.Duration`), in nanoseconds. -/
abbrev Duration := Int

/-- The constant `time.Minute`. -/
def Minute : Duration := 60 * 1000000000

/-- Go `t.Add(d)`. -/
def Time.Add (t : Time) (d : Duration) : Time := t + d

/-- Go `t.After(u)`: `t` is strictly later than `u`. -/
def Time.After (t u : Time) : Bool := decide (u < t)

/-! ## `handlers/auth_handler.go`: the OAuth state map -/

namespace AuthHandler

/-- The field `oauthStates map[string]time.Time` of `AuthHandler`. -/
abbrev OAuthStates := List (String × Time)

/-- Go `v, ok := m[k]`. -/
def mapGet (m : OAuthStates) (k : String) : Option Time := List.lookup k m

/-- Go `delete(m, k)`. -/
def mapDelete (m : OAuthStates) (k : String) : OAuthStates :=
  m.filter (fun p => p.1 != k)

/-- Go `m[k] = v`. -/
def mapSet (m : OAuthStates) (k : String) (v : Time) : OAuthStates :=
  (k, v) :: mapDelete m k

/-- The effect of `GoogleLogin` on the state map: the freshly generated `state`
is stored with expiry `time.Now().Add(5 * time.Minute)`. -/
def GoogleLogin (oauthStates : OAuthStates) (state : String) (now : Time) : OAuthStates :=
  mapSet oauthStates state (Time.Add now (5 * Minute))

/-- The effect of `FacebookLogin` on the state map (same statement as in
`GoogleLogin`). -/
def FacebookLogin (oauthStates : OAuthStates) (state : String) (now : Time) : OAuthStates :=
  mapSet oauthStates state (Time.Add now (5 * Minute))

/-- The method `validateState`: returns the boolean result and the state map
after the call. `now` is the value read by `time.Now()`. -/
def validateState (oauthStates : OAuthStates) (state : String) (now : Time) :
    Bool × OAuthStates :=
  match mapGet oauthStates state with
  | none => (false, oauthStates)
  | some expiry =>
    -- Clean up expired states
    let swept := oauthStates.filter (fun p => !(Time.After now p.2))
    if Time.After now expiry then
      (false, mapDelete swept state)
    else
      -- Remove used state
      (true, mapDelete swept state)

end AuthHandler

/-! ## Go errors and results -/

/-- One `validator.FieldError`: the namespace of the failing field (struct name
and field name), the failing field, the failing tag and the tag's parameter. -/
structure FieldError where
  Namespace : String
  Field : String
  Tag : String
  Param : String
deriving DecidableEq, Repr

/-- Go `error` values as this service builds them. -/
inductive Error where
  /-- An error with a plain message: `fmt.Errorf` without `%w`, or an error
  coming from a driver or a library. -/
  | errorString (msg : String)
  /-- The value of `fmt.Errorf(msg + "%w", err)`: `msg` is the text before the
  wrapped error. -/
  | wrapError (msg : String) (err : Error)
  /-- A `validator.ValidationErrors` value. -/
  | validationErrors (errs : List FieldError)
deriving DecidableEq, Repr

deriving instance DecidableEq for Except

/-- The method `Error()` of one `validator.FieldError`. -/
def FieldError.Error (fe : FieldError) : String :=
  "Key: '" ++ fe.Namespace ++ "' Error:Field validation for '" ++ fe.Field ++
    "' failed on the '" ++ fe.Tag ++ "' tag"

set_option linter.dupNamespace false in
/-- The method `Error()`: the message of an error. A wrapping error prints its
own text followed by the message of the wrapped error; validation errors print
one line per failing field. -/
def Error.Error : Error → String
  | .errorString msg => msg
  | .wrapError msg err => msg ++ err.Error
  | .validationErrors errs => "\n".intercalate (errs.map FieldError.Error)

/-- Outcome of a service method: a value, a returned `error`, or a run-time
panic (nil pointer dereference). -/
inductive Result (α : Type) where
  | ok (v : α)
  | err (e : Error)
  | panic
deriving DecidableEq, Repr

/-! ## `models/user.go` -/

/-- Account identifiers (`uuid.UUID`), kept abstract. -/
abbrev UUID := Nat

structure OAuthUserData where
  ID : String
  Email : String
deriving DecidableEq, Repr

/-- A nil pointer field is `none`. -/
structure OAuthData where
  Google : Option OAuthUserData
  Facebook : Option OAuthUserData
deriving DecidableEq, Repr

/-- The struct `User`; it is also the shape of a row of table `users`. -/
structure User where
  ID : UUID
  Username : String
  DisplayName : String
  Email : String
  PasswordHash : String
  Bio : Option String
  ProfileImageURL : Option String
  OAuthProviders : Option OAuthData
  CreatedAt : Time
deriving DecidableEq, Repr

structure RegisterRequest where
  Username : String
  DisplayName : String
  Email : String
  Password : String
deriving DecidableEq, Repr

structure LoginRequest where
  Email : String
  Password : String
deriving DecidableEq, Repr

structure AuthResponse where
  User : User
  AccessToken : String
  TokenType : String
  ExpiresIn : Int
deriving DecidableEq, Repr

structure OAuthUserInfo where
  ID : String
  Email : String
  Name : String
  Picture : String
  Provider : String
deriving DecidableEq, Repr

/-! ## `database/queries.go` -/

namespace database

/-- The SQL statements of `queries.go` with their arguments. -/
inductive Query where
  | createUserQuery (username displayName email passwordHash : String)
      (oauthProviders : Option OAuthData)
  | getUserByIDQuery (id : UUID)
  | getUserByEmailQuery (email : String)
  | getUserByOAuthQuery (provider providerID : String)
  | updateUserOAuthQuery (id : UUID) (oauthProviders : Option OAuthData)
  | checkEmailExistsQuery (email : String)
  | checkUsernameExistsQuery (username : String)
deriving DecidableEq, Repr

/-- Modelled from the spec: the declaration of table `users` and the database
server are not in the sources. The table is the list of its rows; a column that
an `INSERT` does not name gets its default (`bio` and `profile_image_url` are
nullable and default to NULL, `id` is drawn from `nextID`, `created_at` is the
server clock `now`). `faults` is the schedule of driver failures: the next
statement meets the head of the list (`none`, or an empty list: it runs), and a
failed statement changes no row. `log` records every statement sent, oldest
first. -/
structure DB where
  users : List User
  faults : List (Option Error)
  log : List Query
  nextID : UUID
  now : Time
deriving DecidableEq, Repr

/-- The driver failure that the next statement meets, if any. -/
def DB.fault (db : DB) : Option Error := db.faults.head?.join

/-- The database once statement `q` was sent: the statement is recorded and the
head of the fault schedule is consumed. -/
def DB.sent (db : DB) (q : Query) : DB :=
  { db with faults := db.faults.tail, log := db.log ++ [q] }

/-- Sends one statement: the failure it meets, and the database after it. -/
def DB.send (db : DB) (q : Query) : Option Error × DB := (db.fault, db.sent q)

/-- The slot of provider `provider` in the JSON object stored in column
`oauth_providers` (`oauth_providers->provider`): the object has at most the keys
`google` and `facebook`. -/
def oauthSlot (d : OAuthData) (provider : String) : Option OAuthUserData :=
  if provider = "google" then d.Google
  else if provider = "facebook" then d.Facebook
  else none

/-- The `WHERE` clause of `getUserByOAuthQuery`:
`oauth_providers->$1->>'id' = $2`. -/
def matchesOAuth (provider providerID : String) (u : User) : Bool :=
  match u.OAuthProviders with
  | none => false
  | some d =>
    match oauthSlot d provider with
    | none => false
    | some x => x.ID == providerID

/-- The key constraint of table `users`: ids are pairwise distinct, and the
ids still to be drawn (`nextID` onwards) are not in use. -/
def DB.wellFormed (db : DB) : Prop :=
  (db.users.map (fun u => u.ID)).Nodup ∧ ∀ u ∈ db.users, u.ID < db.nextID

/-- The linked-provider invariant: every (provider, external id) pair is held by
at most one row. -/
def DB.linkedProviderInvariant (db : DB) : Prop :=
  ∀ provider providerID : String, db.users.countP (matchesOAuth provider providerID) ≤ 1

namespace UserRepository

/-- The method `Create`: `createUserQuery` inserts username, display name, email,
password hash and provider map, and returns the new row without its password
hash. -/
def Create (db : DB) (user : User) : Except Error User × DB :=
  match db.send (.createUserQuery user.Username user.DisplayName user.Email
      user.PasswordHash user.OAuthProviders) with
  | (some err, db1) => (.error (.wrapError "failed to create user: " err), db1)
  | (none, db1) =>
    let row : User :=
      { ID := db1.nextID
        Username := user.Username
        DisplayName := user.DisplayName
        Email := user.Email
        PasswordHash := user.PasswordHash
        Bio := none
        ProfileImageURL := none
        OAuthProviders := user.OAuthProviders
        CreatedAt := db1.now }
    (.ok { row with PasswordHash := "" },
      { db1 with users := db1.users ++ [row], nextID := db1.nextID + 1 })

/-- The method `GetByID`; `getUserByIDQuery` does not select the password
hash. -/
def GetByID (db : DB) (id : UUID) : Except Error (Option User) × DB :=
  match db.send (.getUserByIDQuery id) with
  | (some err, db1) => (.error (.wrapError "failed to get user by ID: " err), db1)
  | (none, db1) =>
    (.ok ((db1.users.find? (fun u => u.ID == id)).map
      (fun u => { u with PasswordHash := "" })), db1)

/-- The method `GetByEmail`. -/
def GetByEmail (db : DB) (email : String) : Except Error (Option User) × DB :=
  match db.send (.getUserByEmailQuery email) with
  | (some err, db1) => (.error (.wrapError "failed to get user by email: " err), db1)
  | (none, db1) => (.ok (db1.users.find? (fun u => u.Email == email)), db1)

/-- The method `GetByOAuth`. -/
def GetByOAuth (db : DB) (provider providerID : String) : Except Error (Option User) × DB :=
  match db.send (.getUserByOAuthQuery provider providerID) with
  | (some err, db1) => (.error (.wrapError "failed to get user by OAuth: " err), db1)
  | (none, db1) => (.ok (db1.users.find? (matchesOAuth provider providerID)), db1)

/-- The method `UpdateOAuth`: `updateUserOAuthQuery` sets column
`oauth_providers` of the rows with the given id and returns the first of them
without its password hash; no such row gives `nil, nil`. -/
def UpdateOAuth (db : DB) (id : UUID) (oauthData : Option OAuthData) :
    Except Error (Option User) × DB :=
  match db.send (.updateUserOAuthQuery id oauthData) with
  | (some err, db1) => (.error (.wrapError "failed to update user OAuth: " err), db1)
  | (none, db1) =>
    let users1 := db1.users.map
      (fun u => if u.ID = id then { u with OAuthProviders := oauthData } else u)
    (.ok ((users1.find? (fun u => u.ID == id)).map
      (fun u => { u with PasswordHash := "" })), { db1 with users := users1 })

/-- The method `EmailExists`. -/
def EmailExists (db : DB) (email : String) : Except Error Bool × DB :=
  match db.send (.checkEmailExistsQuery email) with
  | (some err, db1) => (.error (.wrapError "failed to check email existence: " err), db1)
  | (none, db1) => (.ok (db1.users.any (fun u => u.Email == email)), db1)

/-- The method `UsernameExists`. -/
def UsernameExists (db : DB) (username : String) : Except Error Bool × DB :=
  match db.send (.checkUsernameExistsQuery username) with
  | (some err, db1) => (.error (.wrapError "failed to check username existence: " err), db1)
  | (none, db1) => (.ok (db1.users.any (fun u => u.Username == username)), db1)

end UserRepository

end database

/-! ## `utils`: validation, password hashing, tokens -/

/-- The methods of `utils.JWTManager` that the service calls. `utils/jwt.go` is
not among the sources, so the manager is a parameter of the service. -/
structure JWTManager where
  GenerateToken : UUID → String → String → Except Error String
  ValidateToken : String → Except Error (UUID × String × String)
  GetExpiresIn : Int

/-- Library behaviour the service depends on, as parameters: `unicode.ToLower`,
the string form of the UUID drawn by `uuid.New()`, bcrypt hashing and
comparison, and the `email` rule of the validator package. -/
structure Libs where
  unicodeToLower : Char → Char
  uuidNewString : String
  bcryptGenerateFromPassword : String → Except Error String
  bcryptCompareHashAndPassword : String → String → Option Error
  validatorIsEmail : String → Bool

/-- One field check of the validator package: the tags of a field are tried in
order and the first failing one is reported. -/
def validateField (structName field : String) (checks : List (String × String × Bool)) :
    List FieldError :=
  match checks.find? (fun c => !c.2.2) with
  | none => []
  | some c =>
    [{ Namespace := structName ++ "." ++ field, Field := field, Tag := c.1, Param := c.2.1 }]

/-- The function `ValidateStruct` on a `RegisterRequest`, following the
`validate` tags of the struct: `required` is non-empty, `min` and `max` bound
the number of characters. The result `none` is Go's `nil`. -/
def ValidateStructRegisterRequest (libs : Libs) (req : RegisterRequest) : Option Error :=
  let errs :=
    validateField "RegisterRequest" "Username"
        [("required", "", req.Username != ""), ("min", "3", decide (3 ≤ req.Username.length)),
          ("max", "50", decide (req.Username.length ≤ 50))] ++
      validateField "RegisterRequest" "DisplayName"
        [("required", "", req.DisplayName != ""),
          ("min", "1", decide (1 ≤ req.DisplayName.length)),
          ("max", "100", decide (req.DisplayName.length ≤ 100))] ++
      validateField "RegisterRequest" "Email"
        [("required", "", req.Email != ""), ("email", "", libs.validatorIsEmail req.Email)] ++
      validateField "RegisterRequest" "Password"
        [("required", "", req.Password != ""), ("min", "6", decide (6 ≤ req.Password.length))]
  if errs.isEmpty then none else some (.validationErrors errs)

/-- The function `ValidateStruct` on a `LoginRequest`. -/
def ValidateStructLoginRequest (libs : Libs) (req : LoginRequest) : Option Error :=
  let errs :=
    validateField "LoginRequest" "Email"
        [("required", "", req.Email != ""), ("email", "", libs.validatorIsEmail req.Email)] ++
      validateField "LoginRequest" "Password" [("required", "", req.Password != "")]
  if errs.isEmpty then none else some (.validationErrors errs)

/-- The function `HashPassword` of `utils/hash.go`. -/
def HashPassword (libs : Libs) (password : String) : Except Error String :=
  libs.bcryptGenerateFromPassword password

/-- The function `VerifyPassword` of `utils/hash.go`. -/
def VerifyPassword (libs : Libs) (hashedPassword password : String) : Option Error :=
  libs.bcryptCompareHashAndPassword hashedPassword password


/-! ## `strings` and `fmt` -/

/-- Go `strings.ToLower(s)`: maps every character through `unicode.ToLower`. -/
def ToLower (lower : Char → Char) (s : String) : String := String.mk (s.data.map lower)

/-- Go `strings.ReplaceAll(s, old, "")` for a one-character `old`: every
occurrence of the character is removed. -/
def ReplaceAll (s : String) (old : Char) : String := String.mk (s.data.filter (fun c => c != old))

/-- Splitting a character list at every occurrence of `sep`. -/
def splitChars (sep : Char) : List Char → List (List Char)
  | [] => [[]]
  | c :: cs =>
    if c = sep then [] :: splitChars sep cs
    else
      match splitChars sep cs with
      | [] => [[c]]
      | part :: parts => (c :: part) :: parts

/-- Go `strings.Split(s, sep)` for a one-character separator. -/
def Split (s : String) (sep : Char) : List String := (splitChars sep s.data).map String.mk

/-- Go `fmt.Sprintf("%s%d", s, n)`. -/
def Sprintf_s_d (s : String) (n : Nat) : String := s ++ toString n

/-! ## `services/auth_service.go` -/

/-- The struct `AuthService`: its token manager, and the library behaviour it
relies on. The repository field is the database state that every method takes
and returns. -/
structure AuthService where
  jwtManager : JWTManager
  libs : Libs

namespace AuthService

open database database.UserRepository

/-- The first part of `generateUniqueUsername`: the base username computed from
display name and email. -/
def baseUsername (s : AuthService) (name email : String) : String :=
  -- Clean name and create base username
  let baseUsername := ToLower s.libs.unicodeToLower (ReplaceAll name ' ')
  -- Use email prefix if name is empty
  let baseUsername := if baseUsername = "" then (Split email '@').headD "" else baseUsername
  -- Remove special characters
  let baseUsername := ReplaceAll baseUsername '.'
  ReplaceAll baseUsername '-'

/-- The `for` loop of `generateUniqueUsername`, entered with the current
`username` and `counter`. -/
def generateUniqueUsernameLoop (s : AuthService) (baseUsername : String)
    (username : String) (counter : Nat) (db : DB) : String × DB :=
  match UsernameExists db username with
  | (.ok false, db1) => (username, db1)
  | (_, db1) =>
    -- Add counter to make it unique
    let username1 := Sprintf_s_d baseUsername counter
    let counter1 := counter + 1
    -- Prevent infinite loop
    if counter1 > 1000 then
      (baseUsername ++ s.libs.uuidNewString.take 8, db1)
    else
      generateUniqueUsernameLoop s baseUsername username1 counter1 db1
termination_by 1000 - counter
decreasing_by omega

/-- The method `generateUniqueUsername`. -/
def generateUniqueUsername (s : AuthService) (name email : String) (db : DB) : String × DB :=
  generateUniqueUsernameLoop s (baseUsername s name email) (baseUsername s name email) 1 db

/-- The `models.User` value that `createOAuthUser` builds and hands to
`Create`. -/
def newOAuthUser (username : String) (userInfo : OAuthUserInfo) : User :=
  -- Create OAuth data
  let oauthUserData : OAuthUserData := { ID := userInfo.ID, Email := userInfo.Email }
  let oauthData : OAuthData :=
    if userInfo.Provider = "google" then { Google := some oauthUserData, Facebook := none }
    else if userInfo.Provider = "facebook" then { Google := none, Facebook := some oauthUserData }
    else { Google := none, Facebook := none }
  { ID := 0
    Username := username
    DisplayName := userInfo.Name
    Email := userInfo.Email
    PasswordHash := ""
    Bio := none
    ProfileImageURL := if userInfo.Picture ≠ "" then some userInfo.Picture else none
    OAuthProviders := some oauthData
    CreatedAt := 0 }

/-- The method `createOAuthUser`. -/
def createOAuthUser (s : AuthService) (userInfo : OAuthUserInfo) (db : DB) :
    Except Error User × DB :=
  -- Generate unique username from name and email
  match generateUniqueUsername s userInfo.Name userInfo.Email db with
  | (username, db1) =>
    match Create db1 (newOAuthUser username userInfo) with
    | (.error err, db2) => (.error (.wrapError "failed to create OAuth user: " err), db2)
    | (.ok createdUser, db2) => (.ok createdUser, db2)

/-- The provider map that `linkOAuthToUser` sends to `UpdateOAuth`. -/
def linkedOAuthData (user : User) (userInfo : OAuthUserInfo) : OAuthData :=
  -- Initialize OAuth data if nil
  let oauthProviders : OAuthData :=
    match user.OAuthProviders with
    | none => { Google := none, Facebook := none }
    | some d => d
  let oauthUserData : OAuthUserData := { ID := userInfo.ID, Email := userInfo.Email }
  -- Add new OAuth provider
  if userInfo.Provider = "google" then { oauthProviders with Google := some oauthUserData }
  else if userInfo.Provider = "facebook" then { oauthProviders with Facebook := some oauthUserData }
  else oauthProviders

/-- The method `linkOAuthToUser`; the returned user is `none` when `UpdateOAuth`
returns `nil, nil`. -/
def linkOAuthToUser (user : User) (userInfo : OAuthUserInfo) (db : DB) :
    Except Error (Option User) × DB :=
  -- Update user with OAuth data
  match UpdateOAuth db user.ID (some (linkedOAuthData user userInfo)) with
  | (.error err, db1) => (.error (.wrapError "failed to update user OAuth: " err), db1)
  | (.ok updatedUser, db1) => (.ok updatedUser, db1)

/-- The part of `handleOAuthUser` that resolves the account: exact match, else
email merge, else create new. The account is `none` when `linkOAuthToUser`
returned a nil user. -/
def resolveOAuthUser (s : AuthService) (userInfo : OAuthUserInfo) (db : DB) :
    Except Error (Option User) × DB :=
  -- Check if user exists with this OAuth provider
  match GetByOAuth db userInfo.Provider userInfo.ID with
  | (.error err, db1) => (.error (.wrapError "failed to check OAuth user: " err), db1)
  | (.ok (some existingUser), db1) => (.ok (some existingUser), db1)
  | (.ok none, db1) =>
    -- Check if user exists with the same email
    match GetByEmail db1 userInfo.Email with
    | (.error err, db2) => (.error (.wrapError "failed to check email user: " err), db2)
    | (.ok (some emailUser), db2) =>
      -- Link OAuth to existing email account
      match linkOAuthToUser emailUser userInfo db2 with
      | (.error err, db3) => (.error (.wrapError "failed to link OAuth: " err), db3)
      | (.ok user, db3) => (.ok user, db3)
    | (.ok none, db2) =>
      -- Create new user
      match createOAuthUser s userInfo db2 with
      | (.error err, db3) => (.error (.wrapError "failed to create OAuth user: " err), db3)
      | (.ok user, db3) => (.ok (some user), db3)

/-- The method `handleOAuthUser`. Reading `user.ID` of a nil user panics. -/
def handleOAuthUser (s : AuthService) (userInfo : OAuthUserInfo) (db : DB) :
    Result AuthResponse × DB :=
  match resolveOAuthUser s userInfo db with
  | (.error err, db1) => (.err err, db1)
  | (.ok none, db1) => (.panic, db1)
  | (.ok (some user), db1) =>
    -- Generate JWT token
    match s.jwtManager.GenerateToken user.ID user.Username user.Email with
    | .error err => (.err (.wrapError "failed to generate token: " err), db1)
    | .ok token =>
      -- Remove password hash from response
      (.ok { User := { user with PasswordHash := "" }
             AccessToken := token
             TokenType := "Bearer"
             ExpiresIn := s.jwtManager.GetExpiresIn }, db1)

/-- The method `Register`. -/
def Register (s : AuthService) (req : RegisterRequest) (db : DB) :
    Except Error AuthResponse × DB :=
  -- Validate request
  match ValidateStructRegisterRequest s.libs req with
  | some err => (.error (.wrapError "validation failed: " err), db)
  | none =>
    -- Check if email already exists
    match EmailExists db req.Email with
    | (.error err, db1) => (.error (.wrapError "failed to check email existence: " err), db1)
    | (.ok true, db1) => (.error (.errorString "email already registered"), db1)
    | (.ok false, db1) =>
      -- Check if username already exists
      match UsernameExists db1 req.Username with
      | (.error err, db2) =>
        (.error (.wrapError "failed to check username existence: " err), db2)
      | (.ok true, db2) => (.error (.errorString "username already taken"), db2)
      | (.ok false, db2) =>
        -- Hash password
        match HashPassword s.libs req.Password with
        | .error err => (.error (.wrapError "failed to hash password: " err), db2)
        | .ok hashedPassword =>
          -- Create user
          let user : User :=
            { ID := 0
              Username := req.Username
              DisplayName := req.DisplayName
              Email := req.Email
              PasswordHash := hashedPassword
              Bio := none
              ProfileImageURL := none
              OAuthProviders := none
              CreatedAt := 0 }
          match Create db2 user with
          | (.error err, db3) => (.error (.wrapError "failed to create user: " err), db3)
          | (.ok createdUser, db3) =>
            -- Generate JWT token
            match s.jwtManager.GenerateToken createdUser.ID createdUser.Username
                createdUser.Email with
            | .error err => (.error (.wrapError "failed to generate token: " err), db3)
            | .ok token =>
              (.ok { User := createdUser
                     AccessToken := token
                     TokenType := "Bearer"
                     ExpiresIn := s.jwtManager.GetExpiresIn }, db3)

/-- The method `Login`. -/
def Login (s : AuthService) (req : LoginRequest) (db : DB) : Except Error AuthResponse × DB :=
  -- Validate request
  match ValidateStructLoginRequest s.libs req with
  | some err => (.error (.wrapError "validation failed: " err), db)
  | none =>
    -- Get user by email
    match GetByEmail db req.Email with
    | (.error err, db1) => (.error (.wrapError "failed to get user: " err), db1)
    | (.ok none, db1) => (.error (.errorString "invalid email or password"), db1)
    | (.ok (some user), db1) =>
      -- Verify password
      match VerifyPassword s.libs user.PasswordHash req.Password with
      | some _ => (.error (.errorString "invalid email or password"), db1)
      | none =>
        -- Generate JWT token
        match s.jwtManager.GenerateToken user.ID user.Username user.Email with
        | .error err => (.error (.wrapError "failed to generate token: " err), db1)
        | .ok token =>
          -- Remove password hash from response
          (.ok { User := { user with PasswordHash := "" }
                 AccessToken := token
                 TokenType := "Bearer"
                 ExpiresIn := s.jwtManager.GetExpiresIn }, db1)

/-- The method `HandleGoogleCallback`; `exchanged` is what
`ExchangeGoogleCode` returned for the authorization code. -/
def HandleGoogleCallback (s : AuthService) (exchanged : Except Error OAuthUserInfo) (db : DB) :
    Result AuthResponse × DB :=
  match exchanged with
  | .error err => (.err (.wrapError "failed to exchange Google code: " err), db)
  | .ok userInfo => handleOAuthUser s userInfo db

/-- The method `HandleFacebookCallback`; `exchanged` is what
`ExchangeFacebookCode` returned for the authorization code. -/
def HandleFacebookCallback (s : AuthService) (exchanged : Except Error OAuthUserInfo)
    (db : DB) : Result AuthResponse × DB :=
  match exchanged with
  | .error err => (.err (.wrapError "failed to exchange Facebook code: " err), db)
  | .ok userInfo => handleOAuthUser s userInfo db

/-- The method `ValidateToken`; the claims are the account id, the username and
the email. -/
def ValidateToken (s : AuthService) (tokenString : String) (db : DB) : Except Error User × DB :=
  -- Validate JWT token
  match s.jwtManager.ValidateToken tokenString with
  | .error err => (.error (.wrapError "invalid token: " err), db)
  | .ok claims =>
    -- Get user from database
    match GetByID db claims.1 with
    | (.error err, db1) => (.error (.wrapError "failed to get user: " err), db1)
    | (.ok none, db1) => (.error (.errorString "user not found"), db1)
    | (.ok (some user), db1) =>
      -- Remove password hash from response
      (.ok { user with PasswordHash := "" }, db1)

/-! ### Vocabulary for statements about the username loop -/

/-- The candidates in the order the loop tries them: base, base1, base2, ... -/
def usernameCandidate (baseUsername : String) (i : Nat) : String :=
  if i = 0 then baseUsername else Sprintf_s_d baseUsername i

/-- The database state after the existence checks of the first `i`
candidates. -/
def dbAfterChecks (baseUsername : String) (db : DB) : Nat → DB
  | 0 => db
  | i + 1 => (UsernameExists (dbAfterChecks baseUsername db i) (usernameCandidate baseUsername i)).2

/-- What the store reports when the loop checks candidate number `i` (after
having checked the candidates before it). -/
def storeReport (baseUsername : String) (db : DB) (i : Nat) : Except Error Bool :=
  (UsernameExists (dbAfterChecks baseUsername db i) (usernameCandidate baseUsername i)).1

end AuthService

/-! ## `models/response.go` -/

/-- The values this service puts in the `interface{}` fields of a response:
nil, a string, a `map[string]string`, an `AuthResponse` or a `User`. -/
inductive Payload where
  | null
  | text (s : String)
  | fields (m : List (String × String))
  | auth (r : AuthResponse)
  | user (u : User)
deriving DecidableEq, Repr

structure APIError where
  Code : String
  Message : String
  Details : Payload
deriving DecidableEq, Repr

structure APIResponse where
  Success : Bool
  Message : String
  Data : Payload
  Error : Option APIError
deriving DecidableEq, Repr

def SuccessResponse (message : String) (data : Payload) : APIResponse :=
  { Success := true, Message := message, Data := data, Error := none }

def ErrorResponse (code message : String) (details : Payload) : APIResponse :=
  { Success := false
    Message := message
    Data := .null
    Error := some { Code := code, Message := message, Details := details } }

/-- What a handler sends: the status given to `c.Status` (200 when it is not
called) and the JSON body. -/
structure HTTPResponse where
  Status : Nat
  Body : APIResponse
deriving DecidableEq, Repr

/-! ## `utils/validator.go`: formatting -/

/-- The function `getErrorMessage`. -/
def getErrorMessage (fe : FieldError) : String :=
  if fe.Tag = "required" then fe.Field ++ " is required"
  else if fe.Tag = "email" then "Invalid email format"
  else if fe.Tag = "min" then fe.Field ++ " must be at least " ++ fe.Param ++ " characters"
  else if fe.Tag = "max" then fe.Field ++ " must not exceed " ++ fe.Param ++ " characters"
  else fe.Field ++ " is invalid"

/-- Go `m[k] = v` on a `map[string]string`. -/
def stringMapSet (m : List (String × String)) (k v : String) : List (String × String) :=
  (k, v) :: m.filter (fun p => p.1 != k)

/-- The function `FormatValidationErrors`: the type assertion
`err.(validator.ValidationErrors)` succeeds only when `err` itself is a
`ValidationErrors` value; any other error, a wrapping one included, gives the
empty map. -/
def FormatValidationErrors (libs : Libs) (err : Error) : List (String × String) :=
  match err with
  | .validationErrors validationErrors =>
    validationErrors.foldl
      (fun errors fieldError =>
        stringMapSet errors (ToLower libs.unicodeToLower fieldError.Field)
          (getErrorMessage fieldError))
      []
  | _ => []

/-! ## `handlers/auth_handler.go`: the endpoints -/

namespace AuthHandler

open database

/-- The handler `Register`; `body` is what `c.BodyParser` made of the request
body. -/
def Register (s : AuthService) (body : Except Error RegisterRequest) (db : DB) :
    HTTPResponse × DB :=
  match body with
  | .error err =>
    ({ Status := 400
       Body := ErrorResponse "INVALID_REQUEST" "Invalid request body" (.text err.Error) }, db)
  | .ok req =>
    match AuthService.Register s req db with
    | (.error err, db1) =>
      -- Check for validation errors
      let validationErrors := FormatValidationErrors s.libs err
      if validationErrors.length > 0 then
        ({ Status := 400
           Body := ErrorResponse "VALIDATION_ERROR" "Validation failed"
             (.fields validationErrors) }, db1)
      else
        -- Check for duplicate errors
        let errMsg := err.Error
        if errMsg = "email already registered" then
          ({ Status := 409
             Body := ErrorResponse "EMAIL_EXISTS" "Email already registered" .null }, db1)
        else if errMsg = "username already taken" then
          ({ Status := 409
             Body := ErrorResponse "USERNAME_EXISTS" "Username already taken" .null }, db1)
        else
          ({ Status := 500
             Body := ErrorResponse "REGISTRATION_FAILED" "Failed to register user"
               (.text err.Error) }, db1)
    | (.ok response, db1) =>
      ({ Status := 201
         Body := SuccessResponse "User registered successfully" (.auth response) }, db1)

/-- The handler `Login`; `body` is what `c.BodyParser` made of the request
body. -/
def Login (s : AuthService) (body : Except Error LoginRequest) (db : DB) :
    HTTPResponse × DB :=
  match body with
  | .error err =>
    ({ Status := 400
       Body := ErrorResponse "INVALID_REQUEST" "Invalid request body" (.text err.Error) }, db)
  | .ok req =>
    match AuthService.Login s req db with
    | (.error err, db1) =>
      -- Check for validation errors
      let validationErrors := FormatValidationErrors s.libs err
      if validationErrors.length > 0 then
        ({ Status := 400
           Body := ErrorResponse "VALIDATION_ERROR" "Validation failed"
             (.fields validationErrors) }, db1)
      else if err.Error = "invalid email or password" then
        -- Check for invalid credentials
        ({ Status := 401
           Body := ErrorResponse "INVALID_CREDENTIALS" "Invalid email or password" .null }, db1)
      else
        ({ Status := 500
           Body := ErrorResponse "LOGIN_FAILED" "Failed to login" (.text err.Error) }, db1)
    | (.ok response, db1) =>
      ({ Status := 200, Body := SuccessResponse "Login successful" (.auth response) }, db1)

/-- The prefix stripping of handler `ValidateToken`:
`if len(token) > 7 && token[:7] == "Bearer " { token = token[7:] }`. The seven
bytes of "Bearer " are ASCII, so they are the first seven bytes of a string
exactly when they are its first seven characters. -/
def stripBearer (token : String) : String :=
  if token.utf8ByteSize > 7 ∧ token.data.take 7 = "Bearer ".data then
    String.mk (token.data.drop 7)
  else token

/-- The handler `ValidateToken`; `authorization` is the value of the
`Authorization` header (empty when the header is missing). -/
def ValidateToken (s : AuthService) (authorization : String) (db : DB) : HTTPResponse × DB :=
  if authorization = "" then
    ({ Status := 400
       Body := ErrorResponse "MISSING_TOKEN" "Authorization header is required" .null }, db)
  else
    -- Remove "Bearer " prefix if present
    match AuthService.ValidateToken s (stripBearer authorization) db with
    | (.error err, db1) =>
      ({ Status := 401
         Body := ErrorResponse "INVALID_TOKEN" "Invalid or expired token" (.text err.Error) },
        db1)
    | (.ok user, db1) =>
      ({ Status := 200, Body := SuccessResponse "Token is valid" (.user user) }, db1)

end AuthHandler

/-! ## `middleware/jwt_middleware.go` -/

namespace AuthMiddleware

open database

/-- What the middleware does with a request: it answers itself, or it stores the
user in the context (`user`, `userID`, `username`) and calls `c.Next()`. -/
inductive Outcome where
  | respond (r : HTTPResponse)
  | next (user : User)
deriving DecidableEq, Repr

/-- The header parsing of `JWTMiddleware`: the token of `Bearer <token>`, or
`none` when the header does not have exactly two space-separated parts or the
first is not "bearer" in some casing. -/
def bearerToken (libs : Libs) (authHeader : String) : Option String :=
  match Split authHeader ' ' with
  | [scheme, token] => if ToLower libs.unicodeToLower scheme ≠ "bearer" then none else some token
  | _ => none

/-- The handler returned by `JWTMiddleware`; `authHeader` is the value of the
`Authorization` header (empty when the header is missing). -/
def JWTMiddleware (s : AuthService) (authHeader : String) (db : DB) : Outcome × DB :=
  if authHeader = "" then
    (.respond { Status := 401
                Body := ErrorResponse "UNAUTHORIZED" "Missing authorization header" .null }, db)
  else
    -- Extract token from "Bearer <token>"
    match bearerToken s.libs authHeader with
    | none =>
      (.respond { Status := 401
                  Body := ErrorResponse "UNAUTHORIZED" "Invalid authorization header format"
                    .null }, db)
    | some token =>
      -- Validate token and get user
      match AuthService.ValidateToken s token db with
      | (.error err, db1) =>
        (.respond { Status := 401
                    Body := ErrorResponse "UNAUTHORIZED" "Invalid or expired token"
                      (.text err.Error) }, db1)
      | (.ok user, db1) => (.next user, db1)

end AuthMiddleware

/-! ## `handlers/auth_handler.go`: `validateState` statement by statement -/

namespace AuthHandler

/-- The first statement of `validateState`: the lookup
`expiry, exists := h.oauthStates[state]`. -/
def validateStateLookup (oauthStates : OAuthStates) (state : String) : Option Time :=
  mapGet oauthStates state

/-- The statements of `validateState` after a lookup that found `expiry`: the
sweep, the expiry test and the `delete`, run on the map as it is then. -/
def validateStateFinish (oauthStates : OAuthStates) (state : String) (expiry now : Time) :
    Bool × OAuthStates :=
  -- Clean up expired states
  let swept := oauthStates.filter (fun p => !(Time.After now p.2))
  if Time.After now expiry then
    (false, mapDelete swept state)
  else
    -- Remove used state
    (true, mapDelete swept state)

/-- Two calls of `validateState` for the same `state`, made by two requests
whose statements interleave (the handler holds no lock): both lookups run first,
then the first call runs to its end, then the second. The result is what each
call returns, and the map at the end. -/
def validateStateInterleaved (oauthStates : OAuthStates) (state : String) (nowA nowB : Time) :
    Bool × Bool × OAuthStates :=
  let lookupA := validateStateLookup oauthStates state
  let lookupB := validateStateLookup oauthStates state
  let callA :=
    match lookupA with
    | none => (false, oauthStates)
    | some expiry => validateStateFinish oauthStates state expiry nowA
  let callB :=
    match lookupB with
    | none => (false, callA.2)
    | some expiry => validateStateFinish callA.2 state expiry nowB
  (callA.1, callB.1, callB.2)

/-- Calls of `validateState` for the same `state` made one after the other, at
the given times: what each returns, and the map at the end. -/
def validateStateSequence (oauthStates : OAuthStates) (state : String) :
    List Time → List Bool × OAuthStates
  | [] => ([], oauthStates)
  | now :: times =>
    let call := validateState oauthStates state now
    let rest := validateStateSequence call.2 state times
    (call.1 :: rest.1, rest.2)

end AuthHandler

/-! ## `utils/jwt.go` -/

/-- Modelled from the spec: `utils/jwt.go` is not in the sources. The claims of
a token are the account id, the username, the email, the issue time and the
expiry. -/
structure TokenClaims where
  UserID : UUID
  Username : String
  Email : String
  IssuedAt : Time
  ExpiresAt : Time
deriving DecidableEq, Repr

/-- Modelled from the spec: `utils/jwt.go` is not in the sources. The two
failures of token validation. -/
inductive TokenError where
  | TokenInvalid
  | TokenExpired
deriving DecidableEq, Repr

/-- Modelled from the spec: `utils/jwt.go` is not in the sources. The token
manager holds the signing secret and the time to live (default 24h). The
symmetric signature scheme and the wire format of a token are left open:
`sign secret claims` is the signature of the claims, `encode claims signature`
is the token and `decode` reads a token back, with `none` for a structurally
malformed one. -/
structure TokenManager (Token : Type) where
  secret : String
  ttl : Duration
  sign : String → TokenClaims → String
  encode : TokenClaims → String → Token
  decode : Token → Option (TokenClaims × String)

/-- Modelled from the spec: `utils/jwt.go` is not in the sources.
`issue(accountID, username, email)` encodes the claims with issued-at `now` and
expiry `now + ttl`, signed with the secret. -/
def TokenManager.issue {Token : Type} (m : TokenManager Token) (now : Time)
    (accountID : UUID) (username email : String) : Token :=
  let claims : TokenClaims :=
    { UserID := accountID
      Username := username
      Email := email
      IssuedAt := now
      ExpiresAt := Time.Add now m.ttl }
  m.encode claims (m.sign m.secret claims)

/-- Modelled from the spec: `utils/jwt.go` is not in the sources.
`validate(token)` rejects a malformed token, then checks the signature (a wrong
one is `TokenInvalid`), then the expiry (`TokenExpired` once the current time is
past it), and otherwise returns the claims. -/
def TokenManager.validate {Token : Type} (m : TokenManager Token) (now : Time)
    (token : Token) : Except TokenError TokenClaims :=
  match m.decode token with
  | none => .error .TokenInvalid
  | some (claims, signature) =>
    if signature ≠ m.sign m.secret claims then .error .TokenInvalid
    else if Time.After now claims.ExpiresAt then .error .TokenExpired
    else .ok claims

/-! ## The base username in the words of the specification -/

/-- The base username as the specification describes it, for comparison with
`AuthService.baseUsername`: the display name without the characters `dropped`
and lower-cased, or, when that is empty, the part of the email before the first
'@'; in both cases with every '.' and '-' then removed. -/
def baseUsernameSpec (dropped : Char → Bool) (lower : Char → Char) (name email : String) :
    String :=
  let cleaned := (name.data.filter (fun c => !dropped c)).map lower
  let chosen := if cleaned = [] then email.data.takeWhile (fun c => c != '@') else cleaned
  String.mk (chosen.filter (fun c => c != '.' && c != '-'))

/-! ## Concrete instances -/

namespace Demo

open database

/-- A token manager that always issues a token. -/
def jwtManager : JWTManager :=
  { GenerateToken := fun _ username _ => .ok ("token-" ++ username)
    ValidateToken := fun tokenString =>
      if tokenString = "token-johndoe" then .ok (1, "johndoe", "john@example.com")
      else .error (.errorString "token is malformed")
    GetExpiresIn := 86400 }

/-- Library behaviour on plain ASCII text. -/
def libs : Libs :=
  { unicodeToLower := Char.toLower
    uuidNewString := "123e4567-e89b-12d3-a456-426614174000"
    bcryptGenerateFromPassword := fun password => .ok ("bcrypt:" ++ password)
    bcryptCompareHashAndPassword := fun hashedPassword password =>
      if hashedPassword = "bcrypt:" ++ password then none
      else some (.errorString "hashedPassword is not the hash of the given password")
    validatorIsEmail := fun email => email.data.contains '@' }

def service : AuthService := { jwtManager := jwtManager, libs := libs }

/-- A password account. -/
def account (id : UUID) (username email : String) : User :=
  { ID := id
    Username := username
    DisplayName := username
    Email := email
    PasswordHash := "bcrypt:secret"
    Bio := none
    ProfileImageURL := none
    OAuthProviders := none
    CreatedAt := 0 }

/-- A store holding the usernames "johndoe" and "johndoe1". -/
def db : DB :=
  { users := [account 1 "johndoe" "john@example.com", account 2 "johndoe1" "doe@example.com"]
    faults := []
    log := []
    nextID := 3
    now := 1000 }

/-- An identity asserted by Google, unknown to `db`. -/
def identity : OAuthUserInfo :=
  { ID := "g-100"
    Email := "jd@example.com"
    Name := "John Doe"
    Picture := "https://img.example.com/jd.png"
    Provider := "google" }

/-- An account that already holds the Google identity of `identity`. -/
def linkedAccount : User :=
  { account 7 "jdoe" "jdoe@example.com" with
    OAuthProviders :=
      some { Google := some { ID := "g-100", Email := "jd@example.com" }, Facebook := none } }

/-- A store in which `identity` has an exact match. -/
def linkedDB : DB := { db with users := db.users ++ [linkedAccount], nextID := 8 }

/-- A password account linked to Facebook, with the email of `identity`. -/
def facebookAccount : User :=
  { account 9 "jd" "jd@example.com" with
    OAuthProviders :=
      some { Google := none, Facebook := some { ID := "fb-5", Email := "jd@fb.example.com" } } }

/-- A store in which `identity` matches an account by email only. -/
def emailDB : DB := { db with users := db.users ++ [facebookAccount], nextID := 10 }

/-- The store `db` behind a connection on which the third statement fails. -/
def flakyDB : DB :=
  { db with faults := [none, none, some (.errorString "connection reset by peer")] }

/-- The response to registering "newuser" in `db`. -/
def registerResponse : AuthResponse :=
  { User :=
      { ID := 3
        Username := "newuser"
        DisplayName := "John Doe"
        Email := "new@example.com"
        PasswordHash := ""
        Bio := none
        ProfileImageURL := none
        OAuthProviders := none
        CreatedAt := 1000 }
    AccessToken := "token-newuser"
    TokenType := "Bearer"
    ExpiresIn := 86400 }

/-- The response to a login as "johndoe" in `db`. -/
def loginResponse : AuthResponse :=
  { User := { account 1 "johndoe" "john@example.com" with PasswordHash := "" }
    AccessToken := "token-johndoe"
    TokenType := "Bearer"
    ExpiresIn := 86400 }

/-- The response to resolving `identity` in `linkedDB`. -/
def oauthResponse : AuthResponse :=
  { User := { linkedAccount with PasswordHash := "" }
    AccessToken := "token-jdoe"
    TokenType := "Bearer"
    ExpiresIn := 86400 }

/-- An identity asserted by Google whose display name has two letters. -/
def shortIdentity : OAuthUserInfo :=
  { ID := "g-200", Email := "al@example.com", Name := "Al", Picture := "", Provider := "google" }

/-- A token manager whose tokens are the pair of claims and signature. -/
def tokenManager : TokenManager (TokenClaims × String) :=
  { secret := "demo-secret"
    ttl := 24 * 60 * Minute
    sign := fun secret claims => secret ++ "/" ++ claims.Username ++ "/" ++ claims.Email
    encode := fun claims signature => (claims, signature)
    decode := fun token => some token }

/-- A registration request whose username is too short. -/
def invalidRequest : RegisterRequest :=
  { Username := "ab", DisplayName := "John Doe", Email := "ab@example.com", Password := "secret1" }

/-- A login request without password. -/
def invalidLogin : LoginRequest := { Email := "john@example.com", Password := "" }

/-- A registration request that passes validation. -/
def request (username email : String) : RegisterRequest :=
  { Username := username, DisplayName := "John Doe", Email := email, Password := "secret1" }

/-- The store `db` with the given fault schedule. -/
def dbWithFaults (faults : List (Option Error)) : DB := { db with faults := faults }

/-- A driver failure. -/
def connReset : Error := .errorString "connection reset by peer"

end Demo

/-! ## Theorems: OAuth state map -/

section StateStore

open AuthHandler

theorem mapGet_mapDelete_self (m : OAuthStates) (k : String) :
    mapGet (mapDelete m k) k = none := by
  induction m with
  | nil => rfl
  | cons p m ih =>
    by_cases h : p.1 = k
    · simpa [mapDelete, List.filter_cons, h] using ih
    · have hk : (k == p.1) = false := by simpa using fun h2 => h h2.symm
      simp only [mapGet, mapDelete] at ih ⊢
      simp [List.filter_cons, h, List.lookup, hk, ih]

theorem validateState_snd_lookup (m : OAuthStates) (k : String) (now : Time) :
    (validateState m k now).1 = true → mapGet (validateState m k now).2 k = none := by
  unfold validateState
  split
  · simp
  · split <;> simp [mapGet_mapDelete_self]

/-- C1. A nonce validates at most once: when `validateState n` returns true at
time `t1`, a following `validateState n` at any time `t2` on the resulting map
returns false, because the first call left no binding of `n` in the map. -/
theorem validateState_single_use (m : OAuthStates) (n : String) (t1 t2 : Time)
    (h : (validateState m n t1).1 = true) :
    mapGet (validateState m n t1).2 n = none ∧
      (validateState (validateState m n t1).2 n t2).1 = false := by
  have hnone := validateState_snd_lookup m n t1 h
  refine ⟨hnone, ?_⟩
  generalize (validateState m n t1).2 = m2 at hnone
  simp [validateState, hnone]

theorem validateState_single_use_witness :
    (validateState [("abc", 10)] "abc" 3).1 = true ∧
      (mapGet (validateState [("abc", 10)] "abc" 3).2 "abc" = none ∧
        (validateState (validateState [("abc", 10)] "abc" 3).2 "abc" 4).1 = false) :=
  ⟨by decide, validateState_single_use [("abc", 10)] "abc" 3 4 (by decide)⟩

/-- C2. The result of `validateState` is false exactly when the nonce has no
binding in the map (never issued, or already consumed) or the current time is
strictly after the recorded expiry, and true in every other case, that is when
the nonce is bound to an expiry that the current time has not passed. -/
theorem validateState_result (m : OAuthStates) (n : String) (now : Time) :
    ((validateState m n now).1 = false ↔
        (mapGet m n = none ∨ ∃ expiry, mapGet m n = some expiry ∧ expiry < now)) ∧
      ((validateState m n now).1 = true ↔
        ∃ expiry, mapGet m n = some expiry ∧ ¬ expiry < now) := by
  unfold validateState
  cases hget : mapGet m n with
  | none => simp
  | some expiry =>
    by_cases hlt : expiry < now
    · simp [Time.After, hlt]
    · simp [Time.After, hlt, not_lt.mp hlt]

theorem mapGet_mapSet_self (m : OAuthStates) (k : String) (v : Time) :
    mapGet (mapSet m k v) k = some v := by
  simp [mapGet, mapSet, List.lookup]

/-- C3 (as stated, refuted). It is not the case that every consume time `t1`
with `t1 - t0 >= 5 minutes` makes `validateState` fail: at exactly
`t1 = t0 + 5 minutes` the nonce issued by `GoogleLogin` at `t0` still
validates. -/
theorem validateState_five_minutes_boundary :
    ¬ (∀ (m : OAuthStates) (n : String) (t0 t1 : Time), t1 - t0 ≥ 5 * Minute →
        (validateState (GoogleLogin m n t0) n t1).1 = false) := by
  intro h
  have h1 := h [] "abc" 0 (5 * Minute) (by decide)
  revert h1
  decide

/-- C3 (amended). A nonce stored by `GoogleLogin` or `FacebookLogin` at time
`t0` fails to validate at every time `t1` with `t1 - t0 > 5 minutes`, while at
exactly `t1 = t0 + 5 minutes` it still validates. -/
theorem validateState_expired (m : OAuthStates) (n : String) (t0 t1 : Time)
    (h : t1 - t0 > 5 * Minute) :
    (validateState (GoogleLogin m n t0) n t1).1 = false ∧
      (validateState (FacebookLogin m n t0) n t1).1 = false ∧
      (validateState (GoogleLogin m n t0) n (t0 + 5 * Minute)).1 = true ∧
      (validateState (FacebookLogin m n t0) n (t0 + 5 * Minute)).1 = true := by
  have hlt : t0 + 5 * Minute < t1 := by
    have h2 : (5 * Minute : Int) < t1 - t0 := h
    show (t0 : Int) + 5 * Minute < t1
    linarith
  simp [validateState, GoogleLogin, FacebookLogin, mapGet_mapSet_self, Time.After, Time.Add, hlt]

theorem validateState_expired_witness :
    (validateState (GoogleLogin [] "abc" 0) "abc" 300000000001).1 = false ∧
      (validateState (FacebookLogin [] "abc" 0) "abc" 300000000001).1 = false ∧
      (validateState (GoogleLogin [] "abc" 0) "abc" (0 + 5 * Minute)).1 = true ∧
      (validateState (FacebookLogin [] "abc" 0) "abc" (0 + 5 * Minute)).1 = true :=
  validateState_expired [] "abc" 0 300000000001 (by decide)

end StateStore

/-! ## Theorems: unique usernames -/

section Username

open database database.UserRepository AuthService

theorem UsernameExists_eq (db : DB) (username : String) :
    UsernameExists db username =
      (match db.fault with
        | some err => .error (.wrapError "failed to check username existence: " err)
        | none => .ok (db.users.any (fun u => u.Username == username)),
        db.sent (.checkUsernameExistsQuery username)) := by
  unfold UsernameExists DB.send
  cases db.fault <;> rfl

theorem UsernameExists_users (db : DB) (username : String) :
    (UsernameExists db username).2.users = db.users := by
  rw [UsernameExists_eq]
  rfl

theorem dbAfterChecks_users (base : String) (db : DB) (i : Nat) :
    (dbAfterChecks base db i).users = db.users := by
  induction i with
  | zero => rfl
  | succ i ih => rw [dbAfterChecks, UsernameExists_users, ih]

theorem UsernameExists_ok_false (db : DB) (username : String)
    (h : (UsernameExists db username).1 = .ok false) :
    ∀ u ∈ db.users, u.Username ≠ username := by
  rw [UsernameExists_eq] at h
  cases hf : db.fault with
  | some err => simp [hf] at h
  | none =>
    simp only [hf, Except.ok.injEq, List.any_eq_false] at h
    intro u hu hEq
    exact h u hu (by simpa using hEq)

/-- One turn of the loop when the store reports the current candidate as not
existing. -/
theorem generateUniqueUsernameLoop_free (s : AuthService) (base username : String)
    (counter : Nat) (db : DB) (h : (UsernameExists db username).1 = .ok false) :
    generateUniqueUsernameLoop s base username counter db =
      (username, (UsernameExists db username).2) := by
  rw [generateUniqueUsernameLoop]
  rcases hr : UsernameExists db username with ⟨r, db1⟩
  rw [hr] at h
  simp only at h
  subst h
  rfl

/-- One turn of the loop when the store does not report the current candidate
as not existing (it exists, or the check failed) and the cap is not reached. -/
theorem generateUniqueUsernameLoop_next (s : AuthService) (base username : String)
    (counter : Nat) (db : DB) (h : (UsernameExists db username).1 ≠ .ok false)
    (hc : counter + 1 ≤ 1000) :
    generateUniqueUsernameLoop s base username counter db =
      generateUniqueUsernameLoop s base (Sprintf_s_d base counter) (counter + 1)
        (UsernameExists db username).2 := by
  rw [generateUniqueUsernameLoop]
  rcases hr : UsernameExists db username with ⟨r, db1⟩
  rw [hr] at h
  have hc2 : ¬ counter + 1 > 1000 := by omega
  cases r with
  | error e => simp [hc2]
  | ok b =>
    cases b with
    | false => exact absurd rfl h
    | true => simp [hc2]

/-- One turn of the loop when the store does not report the current candidate
as not existing and the cap is reached: the fallback. -/
theorem generateUniqueUsernameLoop_cap (s : AuthService) (base username : String)
    (counter : Nat) (db : DB) (h : (UsernameExists db username).1 ≠ .ok false)
    (hc : counter + 1 > 1000) :
    generateUniqueUsernameLoop s base username counter db =
      (base ++ s.libs.uuidNewString.take 8, (UsernameExists db username).2) := by
  rw [generateUniqueUsernameLoop]
  rcases hr : UsernameExists db username with ⟨r, db1⟩
  rw [hr] at h
  cases r with
  | error e => simp [hc]
  | ok b =>
    cases b with
    | false => exact absurd rfl h
    | true => simp [hc]

/-- The loop entered at candidate `i` stops at the first candidate `k` from
there on that the store reports as not existing. -/
theorem generateUniqueUsernameLoop_first_free (s : AuthService) (base : String) (db : DB) :
    ∀ (d i k : Nat), k = i + d → k < 1000 →
      (∀ j, i ≤ j → j < k → storeReport base db j ≠ .ok false) →
      storeReport base db k = .ok false →
      generateUniqueUsernameLoop s base (usernameCandidate base i) (i + 1)
          (dbAfterChecks base db i) =
        (usernameCandidate base k, dbAfterChecks base db (k + 1)) := by
  intro d
  induction d with
  | zero =>
    intro i k hk _ _ hfree
    simp only [Nat.add_zero] at hk
    subst hk
    rw [generateUniqueUsernameLoop_free s base _ _ _ hfree]
    rfl
  | succ d ih =>
    intro i k hk hlt hbusy hfree
    have hi : storeReport base db i ≠ .ok false := hbusy i (Nat.le_refl i) (by omega)
    rw [generateUniqueUsernameLoop_next s base _ _ _ hi (by omega)]
    have hcand : Sprintf_s_d base (i + 1) = usernameCandidate base (i + 1) := by
      simp [usernameCandidate]
    rw [hcand]
    exact ih (i + 1) k (by omega) hlt (fun j h1 h2 => hbusy j (by omega) h2) hfree

theorem dbAfterChecks_faults_nil (base : String) (db : DB) (h : db.faults = []) (i : Nat) :
    (dbAfterChecks base db i).faults = [] := by
  induction i with
  | zero => exact h
  | succ i ih =>
    rw [dbAfterChecks, UsernameExists_eq]
    simp [DB.sent, ih]

theorem storeReport_of_no_fault (base : String) (db : DB) (h : db.faults = []) (i : Nat) :
    storeReport base db i =
      .ok (db.users.any (fun u => u.Username == usernameCandidate base i)) := by
  unfold storeReport
  rw [UsernameExists_eq]
  have hf : (dbAfterChecks base db i).fault = none := by
    simp [DB.fault, dbAfterChecks_faults_nil base db h i]
  simp [hf, dbAfterChecks_users]

theorem baseUsername_John_Doe (s : AuthService) (email : String)
    (hlow : ∀ c : Char, c.val < 128 → s.libs.unicodeToLower c = c.toLower) :
    baseUsername s "John Doe" email = "johndoe" := by
  have h1 : ReplaceAll "John Doe" ' ' = "JohnDoe" := by decide
  have h2 : ToLower s.libs.unicodeToLower "JohnDoe" = "johndoe" := by
    simp only [ToLower, List.map]
    rw [hlow 'J' (by decide), hlow 'o' (by decide), hlow 'h' (by decide), hlow 'n' (by decide),
      hlow 'D' (by decide), hlow 'e' (by decide)]
    decide
  have h3 : ReplaceAll (ReplaceAll "johndoe" '.') '-' = "johndoe" := by decide
  simp only [baseUsername, h1, h2]
  rw [if_neg (by decide)]
  exact h3

/-- The full result of `generateUniqueUsername` when candidate `k` is the first
one reported as not existing: that candidate, and the database after `k + 1`
existence checks. -/
theorem generateUniqueUsername_eq_of_first_free (s : AuthService) (name email : String)
    (db : DB) (k : Nat) (hk : k < 1000)
    (hfree : storeReport (baseUsername s name email) db k = .ok false)
    (hfirst : ∀ j, j < k → storeReport (baseUsername s name email) db j ≠ .ok false) :
    generateUniqueUsername s name email db =
      (usernameCandidate (baseUsername s name email) k,
        dbAfterChecks (baseUsername s name email) db (k + 1)) :=
  generateUniqueUsernameLoop_first_free s (baseUsername s name email) db k 0 k
    (by omega) hk (fun j _ hj => hfirst j hj) hfree

/-- C4. When some candidate among the 1000 the loop tries is reported by the
store as not existing (so the fallback is not reached), `generateUniqueUsername`
returns the first such candidate of the sequence base, base1, base2, ..., and no
account in the store has that username. In particular, in a store whose
usernames are exactly "johndoe" and "johndoe1" and whose statements do not fail,
display name "John Doe" gives "johndoe2". -/
theorem generateUniqueUsername_first_free (s : AuthService) (name email : String) (db : DB)
    (k : Nat) (hk : k < 1000)
    (hfree : storeReport (baseUsername s name email) db k = .ok false)
    (hfirst : ∀ j, j < k → storeReport (baseUsername s name email) db j ≠ .ok false) :
    (generateUniqueUsername s name email db).1 =
        usernameCandidate (baseUsername s name email) k ∧
      (∀ u ∈ db.users, u.Username ≠ (generateUniqueUsername s name email db).1) ∧
      (∀ (db2 : DB) (email2 : String),
        (∀ c : Char, c.val < 128 → s.libs.unicodeToLower c = c.toLower) →
        (∀ x, x ∈ db2.users.map (fun u => u.Username) ↔ x = "johndoe" ∨ x = "johndoe1") →
        db2.faults = [] →
        (generateUniqueUsername s "John Doe" email2 db2).1 = "johndoe2") := by
  have hgen : ∀ (s : AuthService) (name email : String) (db : DB) (k : Nat), k < 1000 →
      storeReport (baseUsername s name email) db k = .ok false →
      (∀ j, j < k → storeReport (baseUsername s name email) db j ≠ .ok false) →
      (generateUniqueUsername s name email db).1 =
        usernameCandidate (baseUsername s name email) k := by
    intro s name email db k hk hfree hfirst
    rw [generateUniqueUsername_eq_of_first_free s name email db k hk hfree hfirst]
  have hres := hgen s name email db k hk hfree hfirst
  refine ⟨hres, ?_, ?_⟩
  · rw [hres]
    intro u hu
    have := UsernameExists_ok_false _ _ hfree u
    rw [dbAfterChecks_users] at this
    exact this hu
  · intro db2 email2 hlow husers hfaults
    have hb := baseUsername_John_Doe s email2 hlow
    have hrep : ∀ i, storeReport "johndoe" db2 i =
        .ok (decide (usernameCandidate "johndoe" i = "johndoe" ∨
          usernameCandidate "johndoe" i = "johndoe1")) := by
      intro i
      rw [storeReport_of_no_fault "johndoe" db2 hfaults i]
      congr 1
      rw [Bool.eq_iff_iff]
      simp only [List.any_eq_true, beq_iff_eq, decide_eq_true_eq]
      rw [← husers]
      simp only [List.mem_map]
    have h2 := hgen s "John Doe" email2 db2 2 (by omega)
      (by rw [hb, hrep]; decide)
      (by
        intro j hj
        rw [hb, hrep]
        interval_cases j <;> decide)
    rw [h2, hb]
    decide

theorem generateUniqueUsername_first_free_witness :
    storeReport (baseUsername Demo.service "John Doe" "jd@example.com") Demo.db 2 = .ok false ∧
      (generateUniqueUsername Demo.service "John Doe" "jd@example.com" Demo.db).1 =
        usernameCandidate (baseUsername Demo.service "John Doe" "jd@example.com") 2 ∧
      usernameCandidate (baseUsername Demo.service "John Doe" "jd@example.com") 2 = "johndoe2" :=
  ⟨by decide,
    (generateUniqueUsername_first_free Demo.service "John Doe" "jd@example.com" Demo.db 2
      (by decide) (by decide) (by decide)).1,
    by decide⟩

end Username

/-! ## Theorems: account resolution -/

section Resolution

open database database.UserRepository AuthService

theorem GetByOAuth_eq (db : DB) (provider providerID : String) :
    GetByOAuth db provider providerID =
      (match db.fault with
        | some err => .error (.wrapError "failed to get user by OAuth: " err)
        | none => .ok (db.users.find? (matchesOAuth provider providerID)),
        db.sent (.getUserByOAuthQuery provider providerID)) := by
  unfold GetByOAuth DB.send
  cases db.fault <;> rfl

theorem GetByEmail_eq (db : DB) (email : String) :
    GetByEmail db email =
      (match db.fault with
        | some err => .error (.wrapError "failed to get user by email: " err)
        | none => .ok (db.users.find? (fun u => u.Email == email)),
        db.sent (.getUserByEmailQuery email)) := by
  unfold GetByEmail DB.send
  cases db.fault <;> rfl

theorem EmailExists_eq (db : DB) (email : String) :
    EmailExists db email =
      (match db.fault with
        | some err => .error (.wrapError "failed to check email existence: " err)
        | none => .ok (db.users.any (fun u => u.Email == email)),
        db.sent (.checkEmailExistsQuery email)) := by
  unfold EmailExists DB.send
  cases db.fault <;> rfl

/-- C5. Exact match takes precedence and only reads: when the lookup by
(provider, external id) finds account `u`, `handleOAuthUser` sends that one
statement and nothing else (no lookup by email, no insert, no update: the rows
are untouched), `u` is a row of the table holding that provider identity, and
the response carries `u` with only the password hash blanked, together with the
token issued for `u`; if the token manager refuses to issue, the error is the
token error. -/
theorem handleOAuthUser_exact_match (s : AuthService) (userInfo : OAuthUserInfo) (db : DB)
    (u : User) (h : (GetByOAuth db userInfo.Provider userInfo.ID).1 = .ok (some u)) :
    (handleOAuthUser s userInfo db).2.log =
        db.log ++ [Query.getUserByOAuthQuery userInfo.Provider userInfo.ID] ∧
      (handleOAuthUser s userInfo db).2.users = db.users ∧
      (u ∈ db.users ∧ matchesOAuth userInfo.Provider userInfo.ID u = true) ∧
      (∀ token, s.jwtManager.GenerateToken u.ID u.Username u.Email = .ok token →
        (handleOAuthUser s userInfo db).1 =
          .ok { User := { u with PasswordHash := "" }
                AccessToken := token
                TokenType := "Bearer"
                ExpiresIn := s.jwtManager.GetExpiresIn }) ∧
      (∀ err, s.jwtManager.GenerateToken u.ID u.Username u.Email = .error err →
        (handleOAuthUser s userInfo db).1 =
          .err (.wrapError "failed to generate token: " err)) := by
  rw [GetByOAuth_eq] at h
  have hres : resolveOAuthUser s userInfo db =
      (.ok (some u), db.sent (.getUserByOAuthQuery userInfo.Provider userInfo.ID)) := by
    unfold resolveOAuthUser
    rw [GetByOAuth_eq]
    cases hf : db.fault with
    | some err => simp [hf] at h
    | none =>
      simp only [hf, Except.ok.injEq] at h
      simp [h]
  have hfind : db.users.find? (matchesOAuth userInfo.Provider userInfo.ID) = some u := by
    cases hf : db.fault with
    | some err => simp [hf] at h
    | none => simpa [hf] using h
  refine ⟨?_, ?_, ⟨List.mem_of_find?_eq_some hfind, List.find?_some hfind⟩, ?_, ?_⟩
  · unfold handleOAuthUser
    rw [hres]
    cases hg : s.jwtManager.GenerateToken u.ID u.Username u.Email <;> simp [hg, DB.sent]
  · unfold handleOAuthUser
    rw [hres]
    cases hg : s.jwtManager.GenerateToken u.ID u.Username u.Email <;> simp [hg, DB.sent]
  · intro token ht
    unfold handleOAuthUser
    rw [hres]
    simp [ht]
  · intro err ht
    unfold handleOAuthUser
    rw [hres]
    simp [ht]

theorem handleOAuthUser_exact_match_witness :
    (GetByOAuth Demo.linkedDB Demo.identity.Provider Demo.identity.ID).1 =
        .ok (some Demo.linkedAccount) ∧
      (handleOAuthUser Demo.service Demo.identity Demo.linkedDB).2.log =
        Demo.linkedDB.log ++ [Query.getUserByOAuthQuery "google" "g-100"] ∧
      (handleOAuthUser Demo.service Demo.identity Demo.linkedDB).1 =
        .ok { User := { Demo.linkedAccount with PasswordHash := "" }
              AccessToken := "token-jdoe"
              TokenType := "Bearer"
              ExpiresIn := 86400 } :=
  ⟨by decide,
    (handleOAuthUser_exact_match Demo.service Demo.identity Demo.linkedDB Demo.linkedAccount
      (by decide)).1,
    (handleOAuthUser_exact_match Demo.service Demo.identity Demo.linkedDB Demo.linkedAccount
      (by decide)).2.2.2.1 "token-jdoe" (by decide)⟩

theorem UpdateOAuth_eq (db : DB) (id : UUID) (oauthData : Option OAuthData) :
    UpdateOAuth db id oauthData =
      match db.fault with
      | some err =>
        (.error (.wrapError "failed to update user OAuth: " err),
          db.sent (.updateUserOAuthQuery id oauthData))
      | none =>
        (.ok (((db.users.map
            (fun u => if u.ID = id then { u with OAuthProviders := oauthData } else u)).find?
              (fun u => u.ID == id)).map (fun u => { u with PasswordHash := "" })),
          { db.sent (.updateUserOAuthQuery id oauthData) with
            users := db.users.map
              (fun u => if u.ID = id then { u with OAuthProviders := oauthData } else u) }) := by
  unfold UpdateOAuth DB.send
  cases db.fault <;> rfl

theorem Create_eq (db : DB) (user : User) :
    Create db user =
      match db.fault with
      | some err =>
        (.error (.wrapError "failed to create user: " err),
          db.sent (.createUserQuery user.Username user.DisplayName user.Email
            user.PasswordHash user.OAuthProviders))
      | none =>
        (.ok { ID := db.nextID
               Username := user.Username
               DisplayName := user.DisplayName
               Email := user.Email
               PasswordHash := ""
               Bio := none
               ProfileImageURL := none
               OAuthProviders := user.OAuthProviders
               CreatedAt := db.now },
          { db.sent (.createUserQuery user.Username user.DisplayName user.Email
              user.PasswordHash user.OAuthProviders) with
            users := db.users ++
              [{ ID := db.nextID
                 Username := user.Username
                 DisplayName := user.DisplayName
                 Email := user.Email
                 PasswordHash := user.PasswordHash
                 Bio := none
                 ProfileImageURL := none
                 OAuthProviders := user.OAuthProviders
                 CreatedAt := db.now }]
            nextID := db.nextID + 1 }) := by
  unfold Create DB.send
  cases db.fault <;> rfl

/-- C6. Email merge preserves the account. For an identity of provider google
or facebook, the provider map that `linkOAuthToUser` writes holds the identity's
external id and email in that provider's slot and, in the other provider's
slot, exactly what the account had there before. The only statement sent is the
update of the provider map of the account's id. When the statement runs, the
table afterwards is the table before with that map stored in the rows of the
account's id and in no other row: such a row is there with the new map and all
its other columns as before, every other row is there as it was, and the
account returned is the stored row with the new map (its password hash
blanked in the copy returned). When the statement fails, no row changes and the
failure is returned. In both cases every row keeps its id, username, display
name, email, password hash, bio, image URL and creation time. -/
theorem linkOAuthToUser_preserves (user : User) (userInfo : OAuthUserInfo) (db : DB)
    (hp : userInfo.Provider = "google" ∨ userInfo.Provider = "facebook") :
    oauthSlot (linkedOAuthData user userInfo) userInfo.Provider =
        some { ID := userInfo.ID, Email := userInfo.Email } ∧
      (userInfo.Provider = "google" →
        (linkedOAuthData user userInfo).Google =
            some { ID := userInfo.ID, Email := userInfo.Email } ∧
          (linkedOAuthData user userInfo).Facebook =
            user.OAuthProviders.bind (fun d => d.Facebook)) ∧
      (userInfo.Provider = "facebook" →
        (linkedOAuthData user userInfo).Facebook =
            some { ID := userInfo.ID, Email := userInfo.Email } ∧
          (linkedOAuthData user userInfo).Google =
            user.OAuthProviders.bind (fun d => d.Google)) ∧
      (linkOAuthToUser user userInfo db).2.log =
        db.log ++ [Query.updateUserOAuthQuery user.ID (some (linkedOAuthData user userInfo))] ∧
      (db.fault = none →
        (linkOAuthToUser user userInfo db).2.users = db.users.map (fun u =>
            if u.ID = user.ID then
              { u with OAuthProviders := some (linkedOAuthData user userInfo) }
            else u) ∧
          (∀ row ∈ db.users, row.ID = user.ID →
            { row with OAuthProviders := some (linkedOAuthData user userInfo) } ∈
              (linkOAuthToUser user userInfo db).2.users) ∧
          (∀ row ∈ db.users, row.ID ≠ user.ID →
            row ∈ (linkOAuthToUser user userInfo db).2.users) ∧
          (∀ row ∈ (linkOAuthToUser user userInfo db).2.users, row.ID = user.ID →
            row.OAuthProviders = some (linkedOAuthData user userInfo)) ∧
          (linkOAuthToUser user userInfo db).1 =
            .ok ((db.users.find? (fun u => u.ID == user.ID)).map (fun u =>
              { u with
                OAuthProviders := some (linkedOAuthData user userInfo)
                PasswordHash := "" }))) ∧
      (∀ e, db.fault = some e →
        (linkOAuthToUser user userInfo db).2.users = db.users ∧
          (linkOAuthToUser user userInfo db).1 =
            .error (.wrapError "failed to update user OAuth: "
              (.wrapError "failed to update user OAuth: " e))) ∧
      (linkOAuthToUser user userInfo db).2.users.map
          (fun u => { u with OAuthProviders := none }) =
        db.users.map (fun u => { u with OAuthProviders := none }) := by
  have hmap : (db.users.map (fun u =>
      if u.ID = user.ID then
        { u with OAuthProviders := some (linkedOAuthData user userInfo) }
      else u)).map (fun u => { u with OAuthProviders := none }) =
      db.users.map (fun u => { u with OAuthProviders := none }) := by
    rw [List.map_map]
    apply List.map_congr_left
    intro u _
    by_cases hid : u.ID = user.ID <;> simp [hid]
  have hrun : db.fault = none →
      linkOAuthToUser user userInfo db =
        (.ok (((db.users.map (fun u =>
            if u.ID = user.ID then
              { u with OAuthProviders := some (linkedOAuthData user userInfo) }
            else u)).find? (fun u => u.ID == user.ID)).map
              (fun u => { u with PasswordHash := "" })),
          { db.sent (.updateUserOAuthQuery user.ID (some (linkedOAuthData user userInfo))) with
            users := db.users.map (fun u =>
              if u.ID = user.ID then
                { u with OAuthProviders := some (linkedOAuthData user userInfo) }
              else u) }) := by
    intro hf
    unfold linkOAuthToUser
    rw [UpdateOAuth_eq]
    simp only [hf]
  have hfail : ∀ e, db.fault = some e →
      linkOAuthToUser user userInfo db =
        (.error (.wrapError "failed to update user OAuth: "
            (.wrapError "failed to update user OAuth: " e)),
          db.sent (.updateUserOAuthQuery user.ID (some (linkedOAuthData user userInfo)))) := by
    intro e hf
    unfold linkOAuthToUser
    rw [UpdateOAuth_eq]
    simp only [hf]
  have hfind : ∀ l : List User,
      ((l.map (fun u =>
          if u.ID = user.ID then
            { u with OAuthProviders := some (linkedOAuthData user userInfo) }
          else u)).find? (fun u => u.ID == user.ID)).map
            (fun u => { u with PasswordHash := "" }) =
        (l.find? (fun u => u.ID == user.ID)).map (fun u =>
          { u with
            OAuthProviders := some (linkedOAuthData user userInfo)
            PasswordHash := "" }) := by
    intro l
    induction l with
    | nil => rfl
    | cons u l ih =>
      by_cases hid : u.ID = user.ID
      · simp [List.find?_cons, hid]
      · simpa [List.find?_cons, hid] using ih
  refine ⟨?_, ?_, ?_, ?_, ?_, ?_, ?_⟩
  · rcases hp with hg | hf
    · cases ho : user.OAuthProviders <;> simp [linkedOAuthData, oauthSlot, hg, ho]
    · cases ho : user.OAuthProviders <;> simp [linkedOAuthData, oauthSlot, hf, ho]
  · intro hg
    cases ho : user.OAuthProviders <;> simp [linkedOAuthData, hg, ho]
  · intro hf
    have hng : ¬ userInfo.Provider = "google" := by rw [hf]; decide
    cases ho : user.OAuthProviders <;> simp [linkedOAuthData, hf, ho]
  · unfold linkOAuthToUser
    rw [UpdateOAuth_eq]
    cases db.fault <;> simp [DB.sent]
  · intro hf
    rw [hrun hf]
    refine ⟨rfl, ?_, ?_, ?_, ?_⟩
    · intro row hrow hid
      show _ ∈ List.map _ db.users
      rw [List.mem_map]
      exact ⟨row, hrow, by simp [hid]⟩
    · intro row hrow hid
      show _ ∈ List.map _ db.users
      rw [List.mem_map]
      exact ⟨row, hrow, by simp [hid]⟩
    · intro row hrow hid
      have hrow2 : row ∈ List.map (fun u : User =>
          if u.ID = user.ID then
            { u with OAuthProviders := some (linkedOAuthData user userInfo) }
          else u) db.users := hrow
      rw [List.mem_map] at hrow2
      obtain ⟨u, _, hu⟩ := hrow2
      by_cases huid : u.ID = user.ID
      · rw [if_pos huid] at hu
        rw [← hu]
      · rw [if_neg huid] at hu
        rw [← hu] at hid
        exact absurd hid huid
    · show Except.ok _ = Except.ok _
      rw [hfind]
  · intro e hf
    rw [hfail e hf]
    exact ⟨rfl, rfl⟩
  · unfold linkOAuthToUser
    rw [UpdateOAuth_eq]
    cases db.fault
    · simpa [DB.sent] using hmap
    · simp [DB.sent]

theorem linkOAuthToUser_preserves_witness :
    (Demo.identity.Provider = "google" ∨ Demo.identity.Provider = "facebook") ∧
      Demo.emailDB.fault = none ∧
      linkedOAuthData Demo.facebookAccount Demo.identity =
        { Google := some { ID := "g-100", Email := "jd@example.com" }
          Facebook := some { ID := "fb-5", Email := "jd@fb.example.com" } } ∧
      (linkOAuthToUser Demo.facebookAccount Demo.identity Demo.emailDB).2.log =
        Demo.emailDB.log ++ [Query.updateUserOAuthQuery Demo.facebookAccount.ID
          (some (linkedOAuthData Demo.facebookAccount Demo.identity))] ∧
      (linkOAuthToUser Demo.facebookAccount Demo.identity Demo.emailDB).2.users =
        Demo.db.users ++
          [{ Demo.facebookAccount with
             OAuthProviders :=
               some { Google := some { ID := "g-100", Email := "jd@example.com" }
                      Facebook := some { ID := "fb-5", Email := "jd@fb.example.com" } } }] ∧
      (linkOAuthToUser Demo.facebookAccount Demo.identity Demo.emailDB).1 =
        .ok (some
          { Demo.facebookAccount with
            OAuthProviders :=
              some { Google := some { ID := "g-100", Email := "jd@example.com" }
                     Facebook := some { ID := "fb-5", Email := "jd@fb.example.com" } }
            PasswordHash := "" }) ∧
      (linkOAuthToUser Demo.facebookAccount Demo.identity
          { Demo.emailDB with faults := [some Demo.connReset] }).2.users =
        Demo.emailDB.users ∧
      (linkOAuthToUser Demo.facebookAccount Demo.identity Demo.emailDB).2.users.map
          (fun u => u.PasswordHash) =
        ["bcrypt:secret", "bcrypt:secret", "bcrypt:secret"] :=
  ⟨by decide, by decide, by decide,
    (linkOAuthToUser_preserves Demo.facebookAccount Demo.identity Demo.emailDB
      (by decide)).2.2.2.1,
    ((linkOAuthToUser_preserves Demo.facebookAccount Demo.identity Demo.emailDB
      (by decide)).2.2.2.2.1 (by decide)).1.trans (by decide),
    ((linkOAuthToUser_preserves Demo.facebookAccount Demo.identity Demo.emailDB
      (by decide)).2.2.2.2.1 (by decide)).2.2.2.2.trans (by decide),
    ((linkOAuthToUser_preserves Demo.facebookAccount Demo.identity
      { Demo.emailDB with faults := [some Demo.connReset] }
      (by decide)).2.2.2.2.2.1 Demo.connReset (by decide)).1,
    by decide⟩

/-- The create-new branch: when neither lookup finds an account,
`resolveOAuthUser` is `createOAuthUser` run on the database after the two
lookups. -/
theorem resolveOAuthUser_create_new (s : AuthService) (userInfo : OAuthUserInfo) (db : DB)
    (h1 : (GetByOAuth db userInfo.Provider userInfo.ID).1 = .ok none)
    (h2 : (GetByEmail (GetByOAuth db userInfo.Provider userInfo.ID).2 userInfo.Email).1 =
      .ok none) :
    resolveOAuthUser s userInfo db =
      match createOAuthUser s userInfo
        (GetByEmail (GetByOAuth db userInfo.Provider userInfo.ID).2 userInfo.Email).2 with
      | (.error err, db3) => (.error (.wrapError "failed to create OAuth user: " err), db3)
      | (.ok user, db3) => (.ok (some user), db3) := by
  have hp1 : GetByOAuth db userInfo.Provider userInfo.ID =
      (.ok none, (GetByOAuth db userInfo.Provider userInfo.ID).2) := Prod.ext h1 rfl
  have hp2 : GetByEmail (GetByOAuth db userInfo.Provider userInfo.ID).2 userInfo.Email =
      (.ok none, (GetByEmail (GetByOAuth db userInfo.Provider userInfo.ID).2
        userInfo.Email).2) := Prod.ext h2 rfl
  generalize (GetByEmail (GetByOAuth db userInfo.Provider userInfo.ID).2 userInfo.Email).2 = db2
    at hp2
  generalize (GetByOAuth db userInfo.Provider userInfo.ID).2 = db1 at hp1 hp2
  unfold resolveOAuthUser
  rw [hp1]
  simp only [hp2]

theorem handleOAuthUser_db (s : AuthService) (userInfo : OAuthUserInfo) (db : DB) :
    (handleOAuthUser s userInfo db).2 = (resolveOAuthUser s userInfo db).2 := by
  unfold handleOAuthUser
  rcases resolveOAuthUser s userInfo db with ⟨r, db1⟩
  cases r with
  | error e => rfl
  | ok o =>
    cases o with
    | none => rfl
    | some user =>
      simp only
      cases s.jwtManager.GenerateToken user.ID user.Username user.Email <;> rfl

theorem createOAuthUser_eq (s : AuthService) (userInfo : OAuthUserInfo) (db : DB) :
    createOAuthUser s userInfo db =
      match Create (generateUniqueUsername s userInfo.Name userInfo.Email db).2
        (newOAuthUser (generateUniqueUsername s userInfo.Name userInfo.Email db).1
          userInfo) with
      | (.error err, db2) => (.error (.wrapError "failed to create OAuth user: " err), db2)
      | (.ok createdUser, db2) => (.ok createdUser, db2) := by
  unfold createOAuthUser
  rcases generateUniqueUsername s userInfo.Name userInfo.Email db with ⟨username, db1⟩
  rfl

theorem createOAuthUser_db (s : AuthService) (userInfo : OAuthUserInfo) (db : DB) :
    (createOAuthUser s userInfo db).2 =
      (Create (generateUniqueUsername s userInfo.Name userInfo.Email db).2
        (newOAuthUser (generateUniqueUsername s userInfo.Name userInfo.Email db).1
          userInfo)).2 := by
  unfold createOAuthUser
  rcases generateUniqueUsername s userInfo.Name userInfo.Email db with ⟨username, db1⟩
  simp only
  rcases Create db1 (newOAuthUser username userInfo) with ⟨r, db2⟩
  cases r <;> rfl

theorem Create_log (db : DB) (user : User) :
    (Create db user).2.log =
      db.log ++ [Query.createUserQuery user.Username user.DisplayName user.Email
        user.PasswordHash user.OAuthProviders] := by
  rw [Create_eq]
  cases db.fault <;> rfl

/-- C7. Create new: for an identity of provider google or facebook that matches
no account by (provider, external id) nor by email, the last statement that
`handleOAuthUser` sends is the insert issued by `createOAuthUser`, and the
account handed to the store has an empty password hash, the username returned by
`generateUniqueUsername`, the identity's display name and email, and a provider
map whose slot for the identity's provider holds the identity's external id and
email while the other slot is empty. -/
theorem createOAuthUser_account (s : AuthService) (userInfo : OAuthUserInfo) (db : DB)
    (hp : userInfo.Provider = "google" ∨ userInfo.Provider = "facebook")
    (h1 : (GetByOAuth db userInfo.Provider userInfo.ID).1 = .ok none)
    (h2 : (GetByEmail (GetByOAuth db userInfo.Provider userInfo.ID).2 userInfo.Email).1 =
      .ok none) :
    let db2 := (GetByEmail (GetByOAuth db userInfo.Provider userInfo.ID).2 userInfo.Email).2
    let g := generateUniqueUsername s userInfo.Name userInfo.Email db2
    let oauthData : OAuthData :=
      if userInfo.Provider = "google" then
        { Google := some { ID := userInfo.ID, Email := userInfo.Email }, Facebook := none }
      else
        { Google := none, Facebook := some { ID := userInfo.ID, Email := userInfo.Email } }
    (handleOAuthUser s userInfo db).2 = (Create g.2 (newOAuthUser g.1 userInfo)).2 ∧
      (handleOAuthUser s userInfo db).2.log =
        g.2.log ++ [Query.createUserQuery g.1 userInfo.Name userInfo.Email "" (some oauthData)] ∧
      (newOAuthUser g.1 userInfo).PasswordHash = "" ∧
      (newOAuthUser g.1 userInfo).Username = g.1 ∧
      (newOAuthUser g.1 userInfo).DisplayName = userInfo.Name ∧
      (newOAuthUser g.1 userInfo).Email = userInfo.Email ∧
      (newOAuthUser g.1 userInfo).OAuthProviders = some oauthData ∧
      oauthSlot oauthData userInfo.Provider =
        some { ID := userInfo.ID, Email := userInfo.Email } ∧
      (∀ provider, provider ≠ userInfo.Provider → oauthSlot oauthData provider = none) := by
  intro db2 g oauthData
  have hdata : (newOAuthUser g.1 userInfo).OAuthProviders = some oauthData := by
    rcases hp with hg | hf
    · simp [newOAuthUser, oauthData, hg]
    · simp [newOAuthUser, oauthData, hf]
  have hdb : (handleOAuthUser s userInfo db).2 = (Create g.2 (newOAuthUser g.1 userInfo)).2 := by
    rw [handleOAuthUser_db, resolveOAuthUser_create_new s userInfo db h1 h2,
      ← createOAuthUser_db]
    rcases createOAuthUser s userInfo
      (GetByEmail (GetByOAuth db userInfo.Provider userInfo.ID).2 userInfo.Email).2 with ⟨r, db3⟩
    cases r <;> rfl
  refine ⟨hdb, ?_, rfl, rfl, rfl, rfl, hdata, ?_, ?_⟩
  · rw [hdb, Create_log, hdata]
    rfl
  · rcases hp with hg | hf
    · simp [oauthSlot, oauthData, hg]
    · simp [oauthSlot, oauthData, hf]
  · intro provider hne
    rcases hp with hg | hf
    · have : provider ≠ "google" := by rw [← hg]; exact hne
      by_cases hfb : provider = "facebook" <;> simp [oauthSlot, oauthData, hg, this, hfb]
    · have : provider ≠ "facebook" := by rw [← hf]; exact hne
      by_cases hgo : provider = "google" <;> simp [oauthSlot, oauthData, hf, this, hgo]

theorem createOAuthUser_account_witness :
    (Demo.identity.Provider = "google" ∨ Demo.identity.Provider = "facebook") ∧
      (GetByOAuth Demo.db Demo.identity.Provider Demo.identity.ID).1 = .ok none ∧
      (GetByEmail (GetByOAuth Demo.db Demo.identity.Provider Demo.identity.ID).2
        Demo.identity.Email).1 = .ok none ∧
      (newOAuthUser (generateUniqueUsername Demo.service Demo.identity.Name Demo.identity.Email
        (GetByEmail (GetByOAuth Demo.db Demo.identity.Provider Demo.identity.ID).2
          Demo.identity.Email).2).1 Demo.identity).OAuthProviders =
        some { Google := some { ID := "g-100", Email := "jd@example.com" }, Facebook := none } :=
  ⟨by decide, by decide, by decide,
    (createOAuthUser_account Demo.service Demo.identity Demo.db (by decide) (by decide)
      (by decide)).2.2.2.2.2.2.1⟩

/-- The value of `createOAuthUser` when candidate `k` is the first username
reported as not existing. -/
theorem createOAuthUser_eq_of_first_free (s : AuthService) (userInfo : OAuthUserInfo)
    (db : DB) (k : Nat) (hk : k < 1000)
    (hfree : storeReport (baseUsername s userInfo.Name userInfo.Email) db k = .ok false)
    (hfirst : ∀ j, j < k →
      storeReport (baseUsername s userInfo.Name userInfo.Email) db j ≠ .ok false) :
    createOAuthUser s userInfo db =
      match Create (dbAfterChecks (baseUsername s userInfo.Name userInfo.Email) db (k + 1))
        (newOAuthUser (usernameCandidate (baseUsername s userInfo.Name userInfo.Email) k)
          userInfo) with
      | (.error err, db2) => (.error (.wrapError "failed to create OAuth user: " err), db2)
      | (.ok createdUser, db2) => (.ok createdUser, db2) := by
  unfold createOAuthUser
  rw [generateUniqueUsername_eq_of_first_free s userInfo.Name userInfo.Email db k hk hfree hfirst]

/-- The value of `handleOAuthUser` in the create-new branch when candidate `k`
is the first username reported as not existing. -/
theorem handleOAuthUser_create_new (s : AuthService) (userInfo : OAuthUserInfo) (db : DB)
    (k : Nat)
    (h1 : (GetByOAuth db userInfo.Provider userInfo.ID).1 = .ok none)
    (h2 : (GetByEmail (GetByOAuth db userInfo.Provider userInfo.ID).2 userInfo.Email).1 =
      .ok none)
    (hk : k < 1000)
    (hfree : storeReport (baseUsername s userInfo.Name userInfo.Email)
      (GetByEmail (GetByOAuth db userInfo.Provider userInfo.ID).2 userInfo.Email).2 k =
        .ok false)
    (hfirst : ∀ j, j < k → storeReport (baseUsername s userInfo.Name userInfo.Email)
      (GetByEmail (GetByOAuth db userInfo.Provider userInfo.ID).2 userInfo.Email).2 j ≠
        .ok false) :
    handleOAuthUser s userInfo db =
      match Create (dbAfterChecks (baseUsername s userInfo.Name userInfo.Email)
          (GetByEmail (GetByOAuth db userInfo.Provider userInfo.ID).2 userInfo.Email).2 (k + 1))
        (newOAuthUser (usernameCandidate (baseUsername s userInfo.Name userInfo.Email) k)
          userInfo) with
      | (.error err, db3) =>
        (.err (.wrapError "failed to create OAuth user: "
          (.wrapError "failed to create OAuth user: " err)), db3)
      | (.ok user, db3) =>
        match s.jwtManager.GenerateToken user.ID user.Username user.Email with
        | .error err => (.err (.wrapError "failed to generate token: " err), db3)
        | .ok token =>
          (.ok { User := { user with PasswordHash := "" }
                 AccessToken := token
                 TokenType := "Bearer"
                 ExpiresIn := s.jwtManager.GetExpiresIn }, db3) := by
  unfold handleOAuthUser
  rw [resolveOAuthUser_create_new s userInfo db h1 h2,
    createOAuthUser_eq_of_first_free s userInfo _ k hk hfree hfirst]
  rcases Create _ _ with ⟨r, db3⟩
  cases r <;> rfl

theorem Create_ok (db : DB) (user created : User) (h : (Create db user).1 = .ok created) :
    created.ProfileImageURL = none ∧ created.Bio = none ∧
      created.Username = user.Username ∧ created.DisplayName = user.DisplayName ∧
      created.Email = user.Email ∧ created.OAuthProviders = user.OAuthProviders ∧
      created.PasswordHash = "" ∧
      (Create db user).2.users = db.users ++ [{ created with PasswordHash := user.PasswordHash }] := by
  rw [Create_eq] at h ⊢
  cases hf : db.fault with
  | some err => simp [hf] at h
  | none =>
    simp only [hf, Except.ok.injEq] at h ⊢
    subst h
    simp

theorem generateUniqueUsername_users (s : AuthService) (name email : String) (db : DB) :
    (generateUniqueUsername s name email db).2.users = db.users := by
  have hloop : ∀ (n counter : Nat) (username : String) (db1 : DB), 1000 - counter = n →
      (generateUniqueUsernameLoop s (baseUsername s name email) username counter db1).2.users =
        db1.users := by
    intro n
    induction n using Nat.strong_induction_on with
    | _ n ih =>
      intro counter username db1 hn
      by_cases hfree : (UsernameExists db1 username).1 = .ok false
      · rw [generateUniqueUsernameLoop_free s _ _ _ _ hfree, UsernameExists_users]
      · by_cases hc : counter + 1 ≤ 1000
        · rw [generateUniqueUsernameLoop_next s _ _ _ _ hfree hc,
            ih (1000 - (counter + 1)) (by omega) (counter + 1) _ _ rfl, UsernameExists_users]
        · rw [generateUniqueUsernameLoop_cap s _ _ _ _ hfree (by omega), UsernameExists_users]
  exact hloop _ 1 _ db rfl

/-- C8 (the code at the failing input). `createOAuthUser` puts a non-empty
picture URL into the account it builds, but `Create` does not insert it: the
outcome of `Create` is the same whatever image URL the account carries, and the
account that `createOAuthUser` persists and returns has no profile image URL. -/
theorem createOAuthUser_picture_not_persisted (s : AuthService) (userInfo : OAuthUserInfo)
    (db : DB) (created : User) (hpic : userInfo.Picture ≠ "")
    (h : (createOAuthUser s userInfo db).1 = .ok created) :
    (newOAuthUser (generateUniqueUsername s userInfo.Name userInfo.Email db).1
        userInfo).ProfileImageURL = some userInfo.Picture ∧
      (∀ (db1 : DB) (user : User) (url : Option String),
        Create db1 { user with ProfileImageURL := url } = Create db1 user) ∧
      created.ProfileImageURL = none ∧
      (createOAuthUser s userInfo db).2.users = db.users ++ [created] := by
  refine ⟨by simp [newOAuthUser, hpic], fun db1 user url => ?_, ?_, ?_⟩
  · rw [Create_eq, Create_eq]
  · rw [createOAuthUser_eq] at h
    rcases hc : Create (generateUniqueUsername s userInfo.Name userInfo.Email db).2
      (newOAuthUser (generateUniqueUsername s userInfo.Name userInfo.Email db).1 userInfo)
      with ⟨r, db2⟩
    rw [hc] at h
    cases r with
    | error e => simp at h
    | ok u =>
      simp only [Except.ok.injEq] at h
      subst h
      exact (Create_ok _ _ u (by rw [hc])).1
  · have hdb := createOAuthUser_db s userInfo db
    rw [createOAuthUser_eq] at h
    rcases hc : Create (generateUniqueUsername s userInfo.Name userInfo.Email db).2
      (newOAuthUser (generateUniqueUsername s userInfo.Name userInfo.Email db).1 userInfo)
      with ⟨r, db2⟩
    rw [hc] at h
    cases r with
    | error e => simp at h
    | ok u =>
      simp only [Except.ok.injEq] at h
      subst h
      have hok := Create_ok _ _ u (by rw [hc])
      rw [hdb, hok.2.2.2.2.2.2.2, generateUniqueUsername_users]
      have hph : u.PasswordHash = "" := hok.2.2.2.2.2.2.1
      simp [newOAuthUser, ← hph]

theorem createOAuthUser_picture_not_persisted_witness :
    Demo.identity.Picture = "https://img.example.com/jd.png" ∧
      (createOAuthUser Demo.service Demo.identity Demo.db).1 =
        .ok { ID := 3
              Username := "johndoe2"
              DisplayName := "John Doe"
              Email := "jd@example.com"
              PasswordHash := ""
              Bio := none
              ProfileImageURL := none
              OAuthProviders :=
                some { Google := some { ID := "g-100", Email := "jd@example.com" }
                       Facebook := none }
              CreatedAt := 1000 } ∧
      (createOAuthUser Demo.service Demo.identity Demo.db).2.users =
        Demo.db.users ++
          [{ ID := 3
             Username := "johndoe2"
             DisplayName := "John Doe"
             Email := "jd@example.com"
             PasswordHash := ""
             Bio := none
             ProfileImageURL := none
             OAuthProviders :=
               some { Google := some { ID := "g-100", Email := "jd@example.com" }
                      Facebook := none }
             CreatedAt := 1000 }] := by
  have h : (createOAuthUser Demo.service Demo.identity Demo.db).1 =
      .ok { ID := 3
            Username := "johndoe2"
            DisplayName := "John Doe"
            Email := "jd@example.com"
            PasswordHash := ""
            Bio := none
            ProfileImageURL := none
            OAuthProviders :=
              some { Google := some { ID := "g-100", Email := "jd@example.com" }
                     Facebook := none }
            CreatedAt := 1000 } := by
    rw [createOAuthUser_eq_of_first_free Demo.service Demo.identity Demo.db 2 (by decide)
      (by decide) (by decide)]
    decide
  exact ⟨by decide, h,
    (createOAuthUser_picture_not_persisted Demo.service Demo.identity Demo.db _ (by decide)
      h).2.2.2⟩

/-- C9 (as stated, refuted). On a connection where the first username-existence
check of the resolution fails, `handleOAuthUser` still returns a successful
response: the failed check is taken for a collision, the next candidates are
tried and the account is created as "johndoe2". -/
theorem handleOAuthUser_username_check_failure :
    storeReport (baseUsername Demo.service Demo.identity.Name Demo.identity.Email)
        (GetByEmail (GetByOAuth Demo.flakyDB Demo.identity.Provider Demo.identity.ID).2
          Demo.identity.Email).2 0 =
        .error (.wrapError "failed to check username existence: "
          (.errorString "connection reset by peer")) ∧
      (handleOAuthUser Demo.service Demo.identity Demo.flakyDB).1 =
        .ok { User :=
                { ID := 3
                  Username := "johndoe2"
                  DisplayName := "John Doe"
                  Email := "jd@example.com"
                  PasswordHash := ""
                  Bio := none
                  ProfileImageURL := none
                  OAuthProviders :=
                    some { Google := some { ID := "g-100", Email := "jd@example.com" }
                           Facebook := none }
                  CreatedAt := 1000 }
              AccessToken := "token-johndoe2"
              TokenType := "Bearer"
              ExpiresIn := 86400 } ∧
      (handleOAuthUser Demo.service Demo.identity Demo.flakyDB).2.log =
        [Query.getUserByOAuthQuery "google" "g-100",
          Query.getUserByEmailQuery "jd@example.com",
          Query.checkUsernameExistsQuery "johndoe",
          Query.checkUsernameExistsQuery "johndoe1",
          Query.checkUsernameExistsQuery "johndoe2",
          Query.createUserQuery "johndoe2" "John Doe" "jd@example.com" ""
            (some { Google := some { ID := "g-100", Email := "jd@example.com" }
                    Facebook := none })] := by
  have h := handleOAuthUser_create_new Demo.service Demo.identity Demo.flakyDB 2
    (by decide) (by decide) (by decide) (by decide) (by decide)
  refine ⟨by decide, ?_, ?_⟩
  · rw [h]
    decide
  · rw [h]
    decide

/-- C9 (amended). A failure of the lookup by provider, of the lookup by email,
of the update of the provider map or of the insert makes `handleOAuthUser`
return an error (the failure wrapped in the message of the step). A failure of a
username-existence check is not returned: the loop of `generateUniqueUsername`
goes on with the next candidate exactly as it does after a collision. -/
theorem handleOAuthUser_store_failure (s : AuthService) (userInfo : OAuthUserInfo) (db : DB) :
    (∀ e, (GetByOAuth db userInfo.Provider userInfo.ID).1 = .error e →
        (handleOAuthUser s userInfo db).1 =
          .err (.wrapError "failed to check OAuth user: " e)) ∧
      (∀ e, (GetByOAuth db userInfo.Provider userInfo.ID).1 = .ok none →
        (GetByEmail (GetByOAuth db userInfo.Provider userInfo.ID).2 userInfo.Email).1 =
          .error e →
        (handleOAuthUser s userInfo db).1 =
          .err (.wrapError "failed to check email user: " e)) ∧
      (∀ emailUser e, (GetByOAuth db userInfo.Provider userInfo.ID).1 = .ok none →
        (GetByEmail (GetByOAuth db userInfo.Provider userInfo.ID).2 userInfo.Email).1 =
          .ok (some emailUser) →
        (UpdateOAuth (GetByEmail (GetByOAuth db userInfo.Provider userInfo.ID).2
          userInfo.Email).2 emailUser.ID (some (linkedOAuthData emailUser userInfo))).1 =
            .error e →
        (handleOAuthUser s userInfo db).1 =
          .err (.wrapError "failed to link OAuth: "
            (.wrapError "failed to update user OAuth: " e))) ∧
      (∀ e, (GetByOAuth db userInfo.Provider userInfo.ID).1 = .ok none →
        (GetByEmail (GetByOAuth db userInfo.Provider userInfo.ID).2 userInfo.Email).1 =
          .ok none →
        (Create
          (generateUniqueUsername s userInfo.Name userInfo.Email
            (GetByEmail (GetByOAuth db userInfo.Provider userInfo.ID).2 userInfo.Email).2).2
          (newOAuthUser
            (generateUniqueUsername s userInfo.Name userInfo.Email
              (GetByEmail (GetByOAuth db userInfo.Provider userInfo.ID).2 userInfo.Email).2).1
            userInfo)).1 = .error e →
        (handleOAuthUser s userInfo db).1 =
          .err (.wrapError "failed to create OAuth user: "
            (.wrapError "failed to create OAuth user: " e))) ∧
      (∀ (base username : String) (counter : Nat) (db1 : DB) (e : Error),
        (UsernameExists db1 username).1 = .error e → counter + 1 ≤ 1000 →
        generateUniqueUsernameLoop s base username counter db1 =
          generateUniqueUsernameLoop s base (Sprintf_s_d base counter) (counter + 1)
            (UsernameExists db1 username).2) := by
  refine ⟨?_, ?_, ?_, ?_, ?_⟩
  · intro e h1
    have hp1 : GetByOAuth db userInfo.Provider userInfo.ID =
        (.error e, (GetByOAuth db userInfo.Provider userInfo.ID).2) := Prod.ext h1 rfl
    unfold handleOAuthUser resolveOAuthUser
    rw [hp1]
  · intro e h1 h2
    have hp1 : GetByOAuth db userInfo.Provider userInfo.ID =
        (.ok none, (GetByOAuth db userInfo.Provider userInfo.ID).2) := Prod.ext h1 rfl
    have hp2 : GetByEmail (GetByOAuth db userInfo.Provider userInfo.ID).2 userInfo.Email =
        (.error e, (GetByEmail (GetByOAuth db userInfo.Provider userInfo.ID).2
          userInfo.Email).2) := Prod.ext h2 rfl
    generalize (GetByEmail (GetByOAuth db userInfo.Provider userInfo.ID).2 userInfo.Email).2 =
      db2 at hp2
    generalize (GetByOAuth db userInfo.Provider userInfo.ID).2 = db1 at hp1 hp2
    unfold handleOAuthUser resolveOAuthUser
    rw [hp1]
    simp only [hp2]
  · intro emailUser e h1 h2 h3
    have hp1 : GetByOAuth db userInfo.Provider userInfo.ID =
        (.ok none, (GetByOAuth db userInfo.Provider userInfo.ID).2) := Prod.ext h1 rfl
    have hp2 : GetByEmail (GetByOAuth db userInfo.Provider userInfo.ID).2 userInfo.Email =
        (.ok (some emailUser), (GetByEmail (GetByOAuth db userInfo.Provider userInfo.ID).2
          userInfo.Email).2) := Prod.ext h2 rfl
    have hp3 : UpdateOAuth (GetByEmail (GetByOAuth db userInfo.Provider userInfo.ID).2
        userInfo.Email).2 emailUser.ID (some (linkedOAuthData emailUser userInfo)) =
        (.error e, (UpdateOAuth (GetByEmail (GetByOAuth db userInfo.Provider userInfo.ID).2
          userInfo.Email).2 emailUser.ID (some (linkedOAuthData emailUser userInfo))).2) :=
      Prod.ext h3 rfl
    generalize (UpdateOAuth (GetByEmail (GetByOAuth db userInfo.Provider userInfo.ID).2
        userInfo.Email).2 emailUser.ID (some (linkedOAuthData emailUser userInfo))).2 =
      db3 at hp3
    generalize (GetByEmail (GetByOAuth db userInfo.Provider userInfo.ID).2 userInfo.Email).2 =
      db2 at hp2 hp3
    generalize (GetByOAuth db userInfo.Provider userInfo.ID).2 = db1 at hp1 hp2
    unfold handleOAuthUser resolveOAuthUser
    rw [hp1]
    simp only [hp2, linkOAuthToUser, hp3]
  · intro e h1 h2 h3
    unfold handleOAuthUser
    rw [resolveOAuthUser_create_new s userInfo db h1 h2, createOAuthUser_eq]
    rcases hc : Create _ _ with ⟨r, db3⟩
    rw [hc] at h3
    simp only at h3
    subst h3
    rfl
  · intro base username counter db1 e h hc
    exact generateUniqueUsernameLoop_next s base username counter db1 (by simp [h]) hc

theorem handleOAuthUser_store_failure_witness :
    (handleOAuthUser Demo.service Demo.identity (Demo.dbWithFaults [some Demo.connReset])).1 =
        .err (.wrapError "failed to check OAuth user: "
          (.wrapError "failed to get user by OAuth: " Demo.connReset)) ∧
      (handleOAuthUser Demo.service Demo.identity
          (Demo.dbWithFaults [none, some Demo.connReset])).1 =
        .err (.wrapError "failed to check email user: "
          (.wrapError "failed to get user by email: " Demo.connReset)) ∧
      (handleOAuthUser Demo.service Demo.identity
          { Demo.emailDB with faults := [none, none, some Demo.connReset] }).1 =
        .err (.wrapError "failed to link OAuth: "
          (.wrapError "failed to update user OAuth: "
            (.wrapError "failed to update user OAuth: " Demo.connReset))) ∧
      (handleOAuthUser Demo.service Demo.identity
          (Demo.dbWithFaults [none, none, none, none, none, some Demo.connReset])).1 =
        .err (.wrapError "failed to create OAuth user: "
          (.wrapError "failed to create OAuth user: "
            (.wrapError "failed to create user: " Demo.connReset))) ∧
      generateUniqueUsernameLoop Demo.service "johndoe" "johndoe" 1
          (Demo.dbWithFaults [some Demo.connReset]) =
        generateUniqueUsernameLoop Demo.service "johndoe" (Sprintf_s_d "johndoe" 1) (1 + 1)
          (UsernameExists (Demo.dbWithFaults [some Demo.connReset]) "johndoe").2 :=
  ⟨(handleOAuthUser_store_failure Demo.service Demo.identity
      (Demo.dbWithFaults [some Demo.connReset])).1 _ (by decide),
    (handleOAuthUser_store_failure Demo.service Demo.identity
      (Demo.dbWithFaults [none, some Demo.connReset])).2.1 _ (by decide) (by decide),
    (handleOAuthUser_store_failure Demo.service Demo.identity
      { Demo.emailDB with faults := [none, none, some Demo.connReset] }).2.2.1
        Demo.facebookAccount _ (by decide) (by decide) (by decide),
    (handleOAuthUser_store_failure Demo.service Demo.identity
      (Demo.dbWithFaults [none, none, none, none, none, some Demo.connReset])).2.2.2.1 _
        (by decide) (by decide)
        (by
          rw [generateUniqueUsername_eq_of_first_free Demo.service Demo.identity.Name
            Demo.identity.Email _ 2 (by decide) (by decide) (by decide)]
          decide),
    (handleOAuthUser_store_failure Demo.service Demo.identity Demo.db).2.2.2.2
      "johndoe" "johndoe" 1 (Demo.dbWithFaults [some Demo.connReset])
      (.wrapError "failed to check username existence: " Demo.connReset) (by decide)
      (by decide)⟩

end Resolution

/-! ## Theorems: registration -/

section Registration

open database database.UserRepository AuthService

theorem EmailExists_ok_iff (db : DB) (email : String) (b : Bool) :
    (EmailExists db email).1 = .ok b ↔
      db.fault = none ∧ db.users.any (fun u => u.Email == email) = b := by
  rw [EmailExists_eq]
  cases db.fault <;> simp

theorem UsernameExists_ok_iff (db : DB) (username : String) (b : Bool) :
    (UsernameExists db username).1 = .ok b ↔
      db.fault = none ∧ db.users.any (fun u => u.Username == username) = b := by
  rw [UsernameExists_eq]
  cases db.fault <;> simp

/-- C10. For a request that passes validation: when the store reports the email
as existing (some row has it), `Register` fails with "email already registered",
whatever the username, having sent only the email check; when the store reports
the email as new and the username as existing, `Register` fails with "username
already taken", having sent only the two checks. In both cases no insert is sent
and the rows are unchanged. -/
theorem Register_duplicate (s : AuthService) (req : RegisterRequest) (db : DB)
    (hvalid : ValidateStructRegisterRequest s.libs req = none) :
    ((EmailExists db req.Email).1 = .ok true →
        (∃ u ∈ db.users, u.Email = req.Email) ∧
          (Register s req db).1 = .error (.errorString "email already registered") ∧
          (Register s req db).2.log = db.log ++ [Query.checkEmailExistsQuery req.Email] ∧
          (Register s req db).2.users = db.users) ∧
      ((EmailExists db req.Email).1 = .ok false →
        (UsernameExists (EmailExists db req.Email).2 req.Username).1 = .ok true →
        (∀ u ∈ db.users, u.Email ≠ req.Email) ∧
          (∃ u ∈ db.users, u.Username = req.Username) ∧
          (Register s req db).1 = .error (.errorString "username already taken") ∧
          (Register s req db).2.log =
            db.log ++ [Query.checkEmailExistsQuery req.Email,
              Query.checkUsernameExistsQuery req.Username] ∧
          (Register s req db).2.users = db.users) := by
  constructor
  · intro h1
    have hrow := ((EmailExists_ok_iff db req.Email true).1 h1).2
    have hp1 : EmailExists db req.Email = (.ok true, (EmailExists db req.Email).2) :=
      Prod.ext h1 rfl
    have hdb : (EmailExists db req.Email).2 = db.sent (.checkEmailExistsQuery req.Email) := by
      rw [EmailExists_eq]
    have hreg : Register s req db =
        (.error (.errorString "email already registered"), (EmailExists db req.Email).2) := by
      generalize (EmailExists db req.Email).2 = db1 at hp1
      unfold Register
      simp only [hvalid, hp1]
    refine ⟨?_, ?_, ?_, ?_⟩
    · simpa using hrow
    · rw [hreg]
    · rw [hreg, hdb]
      rfl
    · rw [hreg, hdb]
      rfl
  · intro h1 h2
    have hrow1 := ((EmailExists_ok_iff db req.Email false).1 h1).2
    have hrow2 := ((UsernameExists_ok_iff _ req.Username true).1 h2).2
    have hdb1 : (EmailExists db req.Email).2 = db.sent (.checkEmailExistsQuery req.Email) := by
      rw [EmailExists_eq]
    have hdb2 : (UsernameExists (EmailExists db req.Email).2 req.Username).2 =
        (db.sent (.checkEmailExistsQuery req.Email)).sent
          (.checkUsernameExistsQuery req.Username) := by
      rw [UsernameExists_eq, hdb1]
    have hp1 : EmailExists db req.Email = (.ok false, (EmailExists db req.Email).2) :=
      Prod.ext h1 rfl
    have hp2 : UsernameExists (EmailExists db req.Email).2 req.Username =
        (.ok true, (UsernameExists (EmailExists db req.Email).2 req.Username).2) :=
      Prod.ext h2 rfl
    have hreg : Register s req db =
        (.error (.errorString "username already taken"),
          (UsernameExists (EmailExists db req.Email).2 req.Username).2) := by
      generalize (UsernameExists (EmailExists db req.Email).2 req.Username).2 = db2 at hp2
      generalize (EmailExists db req.Email).2 = db1 at hp1 hp2
      unfold Register
      simp only [hvalid, hp1, hp2]
    rw [hdb1] at hrow2
    refine ⟨?_, ?_, ?_, ?_, ?_⟩
    · intro u hu hEq
      rw [List.any_eq_false] at hrow1
      exact hrow1 u hu (by simpa using hEq)
    · simpa [DB.sent] using hrow2
    · rw [hreg]
    · rw [hreg, hdb2]
      simp [DB.sent]
    · rw [hreg, hdb2]
      rfl

theorem Register_duplicate_witness :
    ValidateStructRegisterRequest Demo.service.libs
        (Demo.request "johndoe" "john@example.com") = none ∧
      (Register Demo.service (Demo.request "johndoe" "john@example.com") Demo.db).1 =
        .error (.errorString "email already registered") ∧
      (Register Demo.service (Demo.request "johndoe" "new@example.com") Demo.db).1 =
        .error (.errorString "username already taken") ∧
      (Register Demo.service (Demo.request "johndoe" "new@example.com") Demo.db).2.log =
        Demo.db.log ++ [Query.checkEmailExistsQuery "new@example.com",
          Query.checkUsernameExistsQuery "johndoe"] :=
  ⟨by decide,
    ((Register_duplicate Demo.service (Demo.request "johndoe" "john@example.com") Demo.db
      (by decide)).1 (by decide)).2.1,
    ((Register_duplicate Demo.service (Demo.request "johndoe" "new@example.com") Demo.db
      (by decide)).2 (by decide) (by decide)).2.2.1,
    ((Register_duplicate Demo.service (Demo.request "johndoe" "new@example.com") Demo.db
      (by decide)).2 (by decide) (by decide)).2.2.2.1⟩

end Registration

/-! ## Theorems: login and token validation -/

section LoginAndTokens

open database database.UserRepository AuthService

theorem GetByID_eq (db : DB) (id : UUID) :
    GetByID db id =
      (match db.fault with
        | some err => .error (.wrapError "failed to get user by ID: " err)
        | none => .ok ((db.users.find? (fun u => u.ID == id)).map
            (fun u => { u with PasswordHash := "" })),
        db.sent (.getUserByIDQuery id)) := by
  unfold GetByID DB.send
  cases db.fault <;> rfl

/-- C11. Login does not tell which factor was wrong. For a request that passes
validation, the outcome when the lookup by email finds no account and the
outcome when it finds an account whose password does not verify are the same
error, "invalid email or password"; being an error, neither carries a token, and
in both the store has seen the same single lookup. -/
theorem Login_invalid_credentials (s : AuthService) (req : LoginRequest) (db : DB)
    (hvalid : ValidateStructLoginRequest s.libs req = none) :
    ((GetByEmail db req.Email).1 = .ok none →
        Login s req db =
          (.error (.errorString "invalid email or password"),
            db.sent (.getUserByEmailQuery req.Email))) ∧
      (∀ user e, (GetByEmail db req.Email).1 = .ok (some user) →
        VerifyPassword s.libs user.PasswordHash req.Password = some e →
        Login s req db =
          (.error (.errorString "invalid email or password"),
            db.sent (.getUserByEmailQuery req.Email))) := by
  have hdb : (GetByEmail db req.Email).2 = db.sent (.getUserByEmailQuery req.Email) := by
    rw [GetByEmail_eq]
  constructor
  · intro h1
    have hp : GetByEmail db req.Email = (.ok none, db.sent (.getUserByEmailQuery req.Email)) :=
      Prod.ext h1 hdb
    unfold Login
    simp only [hvalid, hp]
  · intro user e h1 h2
    have hp : GetByEmail db req.Email =
        (.ok (some user), db.sent (.getUserByEmailQuery req.Email)) := Prod.ext h1 hdb
    unfold Login
    simp only [hvalid, hp, h2]

theorem Login_invalid_credentials_witness :
    ValidateStructLoginRequest Demo.service.libs
        { Email := "nobody@example.com", Password := "secret" } = none ∧
      Login Demo.service { Email := "nobody@example.com", Password := "secret" } Demo.db =
        (.error (.errorString "invalid email or password"),
          Demo.db.sent (.getUserByEmailQuery "nobody@example.com")) ∧
      Login Demo.service { Email := "john@example.com", Password := "wrong" } Demo.db =
        (.error (.errorString "invalid email or password"),
          Demo.db.sent (.getUserByEmailQuery "john@example.com")) :=
  ⟨by decide,
    (Login_invalid_credentials Demo.service { Email := "nobody@example.com", Password := "secret" }
      Demo.db (by decide)).1 (by decide),
    (Login_invalid_credentials Demo.service { Email := "john@example.com", Password := "wrong" }
      Demo.db (by decide)).2 (Demo.account 1 "johndoe" "john@example.com")
      (.errorString "hashedPassword is not the hash of the given password") (by decide)
      (by decide)⟩

/-- C13. `ValidateToken`: when the token manager rejects the token the call
fails and the store is not touched at all; when the token is accepted the
account is fetched again by the id of the claims, the call fails with "user not
found" if the store has no such account, and otherwise returns the stored row
(its password hash blanked), whatever username and email the claims carry. -/
theorem ValidateToken_refetch (s : AuthService) (tokenString : String) (db : DB) :
    (∀ e, s.jwtManager.ValidateToken tokenString = .error e →
        ValidateToken s tokenString db = (.error (.wrapError "invalid token: " e), db)) ∧
      (∀ claims, s.jwtManager.ValidateToken tokenString = .ok claims →
        (GetByID db claims.1).1 = .ok none →
        (∀ row ∈ db.users, row.ID ≠ claims.1) ∧
          ValidateToken s tokenString db =
            (.error (.errorString "user not found"), db.sent (.getUserByIDQuery claims.1))) ∧
      (∀ claims user, s.jwtManager.ValidateToken tokenString = .ok claims →
        (GetByID db claims.1).1 = .ok (some user) →
        (∃ row ∈ db.users, row.ID = claims.1 ∧ user = { row with PasswordHash := "" }) ∧
          ValidateToken s tokenString db =
            (.ok { user with PasswordHash := "" }, db.sent (.getUserByIDQuery claims.1))) := by
  refine ⟨?_, ?_, ?_⟩
  · intro e h
    unfold ValidateToken
    simp only [h]
  · intro claims h h1
    have hdb : (GetByID db claims.1).2 = db.sent (.getUserByIDQuery claims.1) := by
      rw [GetByID_eq]
    have hp : GetByID db claims.1 = (.ok none, db.sent (.getUserByIDQuery claims.1)) :=
      Prod.ext h1 hdb
    constructor
    · rw [GetByID_eq] at h1
      cases hf : db.fault with
      | some err => simp [hf] at h1
      | none =>
        simp only [hf, Except.ok.injEq, Option.map_eq_none'] at h1
        intro row hrow hid
        have := List.find?_eq_none.1 h1 row hrow
        simp [hid] at this
    · unfold ValidateToken
      simp only [h, hp]
  · intro claims user h h1
    have hdb : (GetByID db claims.1).2 = db.sent (.getUserByIDQuery claims.1) := by
      rw [GetByID_eq]
    have hp : GetByID db claims.1 = (.ok (some user), db.sent (.getUserByIDQuery claims.1)) :=
      Prod.ext h1 hdb
    constructor
    · rw [GetByID_eq] at h1
      cases hf : db.fault with
      | some err => simp [hf] at h1
      | none =>
        simp only [hf, Except.ok.injEq, Option.map_eq_some'] at h1
        obtain ⟨row, hfind, hrow⟩ := h1
        refine ⟨row, List.mem_of_find?_eq_some hfind, ?_, hrow.symm⟩
        simpa using List.find?_some hfind
    · unfold ValidateToken
      simp only [h, hp]

theorem ValidateToken_refetch_witness :
    ValidateToken Demo.service "garbage" Demo.db =
        (.error (.wrapError "invalid token: " (.errorString "token is malformed")), Demo.db) ∧
      ValidateToken Demo.service "token-johndoe" { Demo.db with users := [] } =
        (.error (.errorString "user not found"),
          DB.sent { Demo.db with users := [] } (.getUserByIDQuery 1)) ∧
      (ValidateToken Demo.service "token-johndoe" Demo.db).1 =
        .ok { Demo.account 1 "johndoe" "john@example.com" with PasswordHash := "" } :=
  ⟨(ValidateToken_refetch Demo.service "garbage" Demo.db).1 _ (by decide),
    ((ValidateToken_refetch Demo.service "token-johndoe" { Demo.db with users := [] }).2.1
      (1, "johndoe", "john@example.com") (by decide) (by decide)).2,
    congrArg Prod.fst ((ValidateToken_refetch Demo.service "token-johndoe" Demo.db).2.2
      (1, "johndoe", "john@example.com")
      { Demo.account 1 "johndoe" "john@example.com" with PasswordHash := "" }
      (by decide) (by decide)).2⟩

theorem Register_ok_user (s : AuthService) (req : RegisterRequest) (db : DB)
    (resp : AuthResponse) (h : (Register s req db).1 = .ok resp) :
    ∃ (db2 : DB) (user : User), (Create db2 user).1 = .ok resp.User := by
  unfold Register at h
  split at h
  · simp at h
  · split at h
    · simp at h
    · simp at h
    · split at h
      · simp at h
      · simp at h
      · split at h
        · simp at h
        · rename_i db2 _ _ hashedPassword _
          simp only at h
          split at h
          · simp at h
          · rename_i createdUser db3 hc
            split at h
            · simp at h
            · simp only [Except.ok.injEq] at h
              subst h
              exact ⟨db2, _, by rw [hc]⟩

theorem Login_ok_user (s : AuthService) (req : LoginRequest) (db : DB)
    (resp : AuthResponse) (h : (Login s req db).1 = .ok resp) :
    ∃ user : User, resp.User = { user with PasswordHash := "" } := by
  unfold Login at h
  split at h
  · simp at h
  · split at h
    · simp at h
    · simp at h
    · rename_i user db1 _
      split at h
      · simp at h
      · split at h
        · simp at h
        · simp only [Except.ok.injEq] at h
          subst h
          exact ⟨user, rfl⟩

theorem handleOAuthUser_ok_user (s : AuthService) (userInfo : OAuthUserInfo) (db : DB)
    (resp : AuthResponse) (h : (handleOAuthUser s userInfo db).1 = .ok resp) :
    ∃ user : User, resp.User = { user with PasswordHash := "" } := by
  unfold handleOAuthUser at h
  split at h
  · simp at h
  · simp at h
  · rename_i user db1 _
    split at h
    · simp at h
    · simp only [Result.ok.injEq] at h
      subst h
      exact ⟨user, rfl⟩

theorem ValidateToken_ok_user (s : AuthService) (tokenString : String) (db : DB)
    (user : User) (h : (ValidateToken s tokenString db).1 = .ok user) :
    ∃ stored : User, user = { stored with PasswordHash := "" } := by
  unfold ValidateToken at h
  split at h
  · simp at h
  · split at h
    · simp at h
    · simp at h
    · rename_i stored db1 _
      simp only [Except.ok.injEq] at h
      exact ⟨stored, h.symm⟩

/-- C12. Whenever `Register`, `Login`, the OAuth resolution (`handleOAuthUser`,
reached from both callbacks) or `ValidateToken` succeeds, on any store and
whatever rows the store holds, the account in the result has an empty password
hash. `Login`, `handleOAuthUser` and `ValidateToken` blank the field of the
account they return; `Register` returns the account as `Create` gives it, and
`Create` does not read the password hash back. -/
theorem returned_account_has_no_password_hash (s : AuthService) (db : DB) :
    (∀ req resp, (Register s req db).1 = .ok resp → resp.User.PasswordHash = "") ∧
      (∀ req resp, (Login s req db).1 = .ok resp → resp.User.PasswordHash = "") ∧
      (∀ userInfo resp, (handleOAuthUser s userInfo db).1 = .ok resp →
        resp.User.PasswordHash = "") ∧
      (∀ exchanged resp, (HandleGoogleCallback s exchanged db).1 = .ok resp →
        resp.User.PasswordHash = "") ∧
      (∀ exchanged resp, (HandleFacebookCallback s exchanged db).1 = .ok resp →
        resp.User.PasswordHash = "") ∧
      (∀ tokenString user, (ValidateToken s tokenString db).1 = .ok user →
        user.PasswordHash = "") := by
  refine ⟨?_, ?_, ?_, ?_, ?_, ?_⟩
  · intro req resp h
    obtain ⟨db2, user, hc⟩ := Register_ok_user s req db resp h
    exact (Create_ok db2 user resp.User hc).2.2.2.2.2.2.1
  · intro req resp h
    obtain ⟨user, hu⟩ := Login_ok_user s req db resp h
    rw [hu]
  · intro userInfo resp h
    obtain ⟨user, hu⟩ := handleOAuthUser_ok_user s userInfo db resp h
    rw [hu]
  · intro exchanged resp h
    cases exchanged with
    | error e => simp [HandleGoogleCallback] at h
    | ok userInfo =>
      obtain ⟨user, hu⟩ := handleOAuthUser_ok_user s userInfo db resp h
      rw [hu]
  · intro exchanged resp h
    cases exchanged with
    | error e => simp [HandleFacebookCallback] at h
    | ok userInfo =>
      obtain ⟨user, hu⟩ := handleOAuthUser_ok_user s userInfo db resp h
      rw [hu]
  · intro tokenString user h
    obtain ⟨stored, hu⟩ := ValidateToken_ok_user s tokenString db user h
    rw [hu]

theorem returned_account_has_no_password_hash_witness :
    (Register Demo.service (Demo.request "newuser" "new@example.com") Demo.db).1 =
        .ok Demo.registerResponse ∧
      (Login Demo.service { Email := "john@example.com", Password := "secret" } Demo.db).1 =
        .ok Demo.loginResponse ∧
      (handleOAuthUser Demo.service Demo.identity Demo.linkedDB).1 = .ok Demo.oauthResponse ∧
      (ValidateToken Demo.service "token-johndoe" Demo.db).1 =
        .ok { Demo.account 1 "johndoe" "john@example.com" with PasswordHash := "" } ∧
      Demo.registerResponse.User.PasswordHash = "" ∧
      Demo.loginResponse.User.PasswordHash = "" ∧
      Demo.oauthResponse.User.PasswordHash = "" ∧
      ({ Demo.account 1 "johndoe" "john@example.com" with PasswordHash := "" } : User).PasswordHash
        = "" :=
  ⟨by decide, by decide, by decide, by decide,
    (returned_account_has_no_password_hash Demo.service Demo.db).1
      (Demo.request "newuser" "new@example.com") Demo.registerResponse (by decide),
    (returned_account_has_no_password_hash Demo.service Demo.db).2.1
      { Email := "john@example.com", Password := "secret" } Demo.loginResponse (by decide),
    (returned_account_has_no_password_hash Demo.service Demo.linkedDB).2.2.1
      Demo.identity Demo.oauthResponse (by decide),
    (returned_account_has_no_password_hash Demo.service Demo.db).2.2.2.2.2 "token-johndoe" _
      (by decide)⟩

end LoginAndTokens

/-! ## Theorems: the linked-provider invariant -/

section LinkedProviders

open database database.UserRepository AuthService

theorem invariant_of_same_rows (db db1 : DB) (hu : db1.users = db.users)
    (hn : db1.nextID = db.nextID) (h : db.wellFormed ∧ db.linkedProviderInvariant) :
    db1.wellFormed ∧ db1.linkedProviderInvariant := by
  unfold DB.wellFormed DB.linkedProviderInvariant at *
  rw [hu, hn]
  exact h

theorem generateUniqueUsername_nextID (s : AuthService) (name email : String) (db : DB) :
    (generateUniqueUsername s name email db).2.nextID = db.nextID := by
  have hex : ∀ (db1 : DB) (username : String),
      (UsernameExists db1 username).2.nextID = db1.nextID := by
    intro db1 username
    rw [UsernameExists_eq]
    rfl
  have hloop : ∀ (n counter : Nat) (username : String) (db1 : DB), 1000 - counter = n →
      (generateUniqueUsernameLoop s (baseUsername s name email) username counter db1).2.nextID =
        db1.nextID := by
    intro n
    induction n using Nat.strong_induction_on with
    | _ n ih =>
      intro counter username db1 hn
      by_cases hfree : (UsernameExists db1 username).1 = .ok false
      · rw [generateUniqueUsernameLoop_free s _ _ _ _ hfree, hex]
      · by_cases hc : counter + 1 ≤ 1000
        · rw [generateUniqueUsernameLoop_next s _ _ _ _ hfree hc,
            ih (1000 - (counter + 1)) (by omega) (counter + 1) _ _ rfl, hex]
        · rw [generateUniqueUsernameLoop_cap s _ _ _ _ hfree (by omega), hex]
  exact hloop _ 1 _ db rfl

/-- A row built by `createOAuthUser` holds no pair but the identity's. -/
theorem matchesOAuth_newOAuthUser (username : String) (userInfo : OAuthUserInfo)
    (provider providerID : String) (row : User)
    (hrow : row.OAuthProviders = (newOAuthUser username userInfo).OAuthProviders)
    (h : matchesOAuth provider providerID row = true) :
    provider = userInfo.Provider ∧ providerID = userInfo.ID := by
  unfold matchesOAuth at h
  rw [hrow] at h
  by_cases hg : userInfo.Provider = "google"
  · by_cases hpg : provider = "google"
    · simp [newOAuthUser, oauthSlot, hg, hpg] at h
      exact ⟨by rw [hg, hpg], h.symm⟩
    · by_cases hpf : provider = "facebook" <;> simp [newOAuthUser, oauthSlot, hg, hpg, hpf] at h
  · by_cases hf : userInfo.Provider = "facebook"
    · by_cases hpg : provider = "google"
      · simp [newOAuthUser, oauthSlot, hg, hf, hpg] at h
      · by_cases hpf : provider = "facebook"
        · simp [newOAuthUser, oauthSlot, hf, hpg, hpf] at h
          exact ⟨by rw [hf, hpf], h.symm⟩
        · simp [newOAuthUser, oauthSlot, hg, hf, hpg, hpf] at h
    · by_cases hpg : provider = "google"
      · simp [newOAuthUser, oauthSlot, hg, hf, hpg] at h
      · by_cases hpf : provider = "facebook" <;>
          simp [newOAuthUser, oauthSlot, hg, hf, hpg, hpf] at h

/-- Inserting the row of a new OAuth account keeps the key constraint and the
invariant when no row held the identity's pair. -/
theorem Create_newOAuthUser_invariant (db : DB) (username : String) (userInfo : OAuthUserInfo)
    (h : db.wellFormed ∧ db.linkedProviderInvariant)
    (hnone : db.users.countP (matchesOAuth userInfo.Provider userInfo.ID) = 0) :
    (Create db (newOAuthUser username userInfo)).2.wellFormed ∧
      (Create db (newOAuthUser username userInfo)).2.linkedProviderInvariant := by
  rw [Create_eq]
  cases hf : db.fault with
  | some err => exact invariant_of_same_rows db _ rfl rfl h
  | none =>
    obtain ⟨⟨hnd, hlt⟩, hinv⟩ := h
    refine ⟨⟨?_, ?_⟩, ?_⟩
    · simp only [DB.sent, List.map_append, List.map_cons, List.map_nil]
      rw [List.nodup_append]
      refine ⟨hnd, List.nodup_singleton _, ?_⟩
      intro a ha hb
      rw [List.mem_singleton] at hb
      rw [List.mem_map] at ha
      obtain ⟨u, hu, hua⟩ := ha
      exact Nat.ne_of_lt (hlt u hu) (hua.trans hb)
    · intro u hu
      simp only [DB.sent, List.mem_append, List.mem_singleton] at hu
      rcases hu with hu | hu
      · exact Nat.lt_succ_of_lt (hlt u hu)
      · rw [hu]
        exact Nat.lt_succ_self _
    · intro provider providerID
      simp only [DB.sent, List.countP_append, List.countP_cons, List.countP_nil]
      split
      · rename_i hm
        have hpair := matchesOAuth_newOAuthUser username userInfo provider providerID _ rfl hm
        rw [hpair.1, hpair.2, hnone]
      · have := hinv provider providerID
        omega

/-- A pair held by an account after linking is the identity's pair or was held
by the account before. -/
theorem matchesOAuth_linked (e : User) (userInfo : OAuthUserInfo) (provider providerID : String)
    (h : matchesOAuth provider providerID
      { e with OAuthProviders := some (linkedOAuthData e userInfo) } = true) :
    (provider = userInfo.Provider ∧ providerID = userInfo.ID) ∨
      matchesOAuth provider providerID e = true := by
  unfold matchesOAuth at h ⊢
  simp only at h
  by_cases hpg : provider = "google"
  · by_cases hg : userInfo.Provider = "google"
    · left
      cases ho : e.OAuthProviders <;>
        simp [linkedOAuthData, oauthSlot, hg, hpg, ho] at h <;>
        exact ⟨by rw [hg, hpg], h.symm⟩
    · right
      by_cases hf : userInfo.Provider = "facebook" <;>
        cases ho : e.OAuthProviders <;>
        simp [linkedOAuthData, oauthSlot, hg, hf, hpg, ho] at h ⊢ <;>
        exact h
  · by_cases hpf : provider = "facebook"
    · by_cases hf : userInfo.Provider = "facebook"
      · left
        have hg : ¬ userInfo.Provider = "google" := by rw [hf]; decide
        cases ho : e.OAuthProviders <;>
          simp [linkedOAuthData, oauthSlot, hg, hf, hpg, hpf, ho] at h <;>
          exact ⟨by rw [hf, hpf], h.symm⟩
      · right
        by_cases hg : userInfo.Provider = "google" <;>
          cases ho : e.OAuthProviders <;>
          simp [linkedOAuthData, oauthSlot, hg, hf, hpg, hpf, ho] at h ⊢ <;>
          exact h
    · simp [oauthSlot, hpg, hpf] at h

/-- Writing the linked provider map to the account found by email keeps the key
constraint and the invariant when no row held the identity's pair. -/
theorem UpdateOAuth_link_invariant (db : DB) (e : User) (userInfo : OAuthUserInfo)
    (he : e ∈ db.users) (h : db.wellFormed ∧ db.linkedProviderInvariant)
    (hnone : db.users.countP (matchesOAuth userInfo.Provider userInfo.ID) = 0) :
    (UpdateOAuth db e.ID (some (linkedOAuthData e userInfo))).2.wellFormed ∧
      (UpdateOAuth db e.ID (some (linkedOAuthData e userInfo))).2.linkedProviderInvariant := by
  rw [UpdateOAuth_eq]
  cases hf : db.fault with
  | some err => exact invariant_of_same_rows db _ rfl rfl h
  | none =>
    obtain ⟨⟨hnd, hlt⟩, hinv⟩ := h
    have hids : ∀ l : List User, (l.map (fun u =>
        if u.ID = e.ID then
          { u with OAuthProviders := some (linkedOAuthData e userInfo) }
        else u)).map (fun u => u.ID) = l.map (fun u => u.ID) := by
      intro l
      rw [List.map_map]
      apply List.map_congr_left
      intro u _
      by_cases hid : u.ID = e.ID <;> simp [hid]
    have huniq : ∀ u ∈ db.users, u.ID = e.ID → u = e := fun u hu hid =>
      List.inj_on_of_nodup_map hnd hu he hid
    refine ⟨⟨?_, ?_⟩, ?_⟩
    · show (List.map (fun u : User => u.ID) (List.map _ db.users)).Nodup
      rw [hids]
      exact hnd
    · intro u hu
      have hu : u ∈ List.map (fun u : User =>
          if u.ID = e.ID then
            { u with OAuthProviders := some (linkedOAuthData e userInfo) }
          else u) db.users := hu
      have hmem : u.ID ∈ db.users.map (fun u => u.ID) := by
        rw [← hids db.users]
        exact List.mem_map_of_mem (fun u => u.ID) hu
      rw [List.mem_map] at hmem
      obtain ⟨v, hv, hvu⟩ := hmem
      have := hlt v hv
      rw [hvu] at this
      exact this
    · intro provider providerID
      show List.countP (matchesOAuth provider providerID) (List.map _ db.users) ≤ 1
      rw [List.countP_map]
      by_cases hpair : provider = userInfo.Provider ∧ providerID = userInfo.ID
      · rw [hpair.1, hpair.2]
        have hno : ∀ u ∈ db.users, ¬ matchesOAuth userInfo.Provider userInfo.ID u = true :=
          List.countP_eq_zero.1 hnone
        have hle : db.users.countP (matchesOAuth userInfo.Provider userInfo.ID ∘ fun u =>
            if u.ID = e.ID then
              { u with OAuthProviders := some (linkedOAuthData e userInfo) }
            else u) ≤ db.users.countP (fun u => u.ID == e.ID) := by
          apply List.countP_mono_left
          intro u hu hm
          by_cases hid : u.ID = e.ID
          · simpa using hid
          · simp only [Function.comp, hid, if_false] at hm
            exact absurd hm (hno u hu)
        have hcount : db.users.countP (fun u => u.ID == e.ID) ≤ 1 := by
          have h1 := List.nodup_iff_count_le_one.1 hnd e.ID
          rw [List.count, List.countP_map] at h1
          exact h1
        exact Nat.le_trans hle hcount
      · have hle : db.users.countP (matchesOAuth provider providerID ∘ fun u =>
            if u.ID = e.ID then
              { u with OAuthProviders := some (linkedOAuthData e userInfo) }
            else u) ≤ db.users.countP (matchesOAuth provider providerID) := by
          apply List.countP_mono_left
          intro u hu hm
          by_cases hid : u.ID = e.ID
          · have hue := huniq u hu hid
            subst hue
            simp only [Function.comp, if_true] at hm
            rcases matchesOAuth_linked u userInfo provider providerID hm with hp | hp
            · exact absurd hp hpair
            · exact hp
          · simpa only [Function.comp, hid, if_false] using hm
        exact Nat.le_trans hle (hinv provider providerID)

theorem linkOAuthToUser_db (user : User) (userInfo : OAuthUserInfo) (db : DB) :
    (linkOAuthToUser user userInfo db).2 =
      (UpdateOAuth db user.ID (some (linkedOAuthData user userInfo))).2 := by
  unfold linkOAuthToUser
  rcases UpdateOAuth db user.ID (some (linkedOAuthData user userInfo)) with ⟨r, db1⟩
  cases r <;> rfl

/-- The database that `resolveOAuthUser` leaves, branch by branch. -/
theorem resolveOAuthUser_db (s : AuthService) (userInfo : OAuthUserInfo) (db : DB) :
    (resolveOAuthUser s userInfo db).2 =
      match (GetByOAuth db userInfo.Provider userInfo.ID).1 with
      | .ok none =>
        match (GetByEmail (GetByOAuth db userInfo.Provider userInfo.ID).2 userInfo.Email).1 with
        | .ok none =>
          (createOAuthUser s userInfo
            (GetByEmail (GetByOAuth db userInfo.Provider userInfo.ID).2 userInfo.Email).2).2
        | .ok (some emailUser) =>
          (linkOAuthToUser emailUser userInfo
            (GetByEmail (GetByOAuth db userInfo.Provider userInfo.ID).2 userInfo.Email).2).2
        | .error _ =>
          (GetByEmail (GetByOAuth db userInfo.Provider userInfo.ID).2 userInfo.Email).2
      | _ => (GetByOAuth db userInfo.Provider userInfo.ID).2 := by
  unfold resolveOAuthUser
  rcases GetByOAuth db userInfo.Provider userInfo.ID with ⟨r1, db1⟩
  cases r1 with
  | error e => rfl
  | ok o1 =>
    cases o1 with
    | some u => rfl
    | none =>
      simp only
      rcases GetByEmail db1 userInfo.Email with ⟨r2, db2⟩
      cases r2 with
      | error e => rfl
      | ok o2 =>
        cases o2 with
        | some emailUser =>
          simp only
          rcases linkOAuthToUser emailUser userInfo db2 with ⟨r3, db3⟩
          cases r3 <;> rfl
        | none =>
          simp only
          rcases createOAuthUser s userInfo db2 with ⟨r3, db3⟩
          cases r3 <;> rfl

/-- C14. Account resolution preserves the linked-provider invariant. In a store
whose ids are distinct (the key constraint of the table) and in which every
(provider, external id) pair is held by at most one account, one run of
`handleOAuthUser`, whatever branch it takes (exact match, email merge, create
new, or a failure on the way), leaves a store in which again every pair is held
by at most one account, and the key constraint holds again. -/
theorem handleOAuthUser_preserves_invariant (s : AuthService) (userInfo : OAuthUserInfo)
    (db : DB) (hwf : db.wellFormed) (hinv : db.linkedProviderInvariant) :
    (handleOAuthUser s userInfo db).2.linkedProviderInvariant ∧
      (handleOAuthUser s userInfo db).2.wellFormed := by
  suffices h : (handleOAuthUser s userInfo db).2.wellFormed ∧
      (handleOAuthUser s userInfo db).2.linkedProviderInvariant from ⟨h.2, h.1⟩
  have h0 : db.wellFormed ∧ db.linkedProviderInvariant := ⟨hwf, hinv⟩
  rw [handleOAuthUser_db, resolveOAuthUser_db]
  have hdb1 : (GetByOAuth db userInfo.Provider userInfo.ID).2 =
      db.sent (.getUserByOAuthQuery userInfo.Provider userInfo.ID) := by rw [GetByOAuth_eq]
  have h1 := invariant_of_same_rows db (GetByOAuth db userInfo.Provider userInfo.ID).2
    (by rw [hdb1]; rfl) (by rw [hdb1]; rfl) h0
  cases hr1 : (GetByOAuth db userInfo.Provider userInfo.ID).1 with
  | error e => exact h1
  | ok o1 =>
    cases o1 with
    | some u => exact h1
    | none =>
      simp only
      have hnone : db.users.countP (matchesOAuth userInfo.Provider userInfo.ID) = 0 := by
        rw [GetByOAuth_eq] at hr1
        cases hf : db.fault with
        | some err => simp [hf] at hr1
        | none =>
          simp only [hf, Except.ok.injEq] at hr1
          rw [List.countP_eq_zero]
          intro u hu
          exact List.find?_eq_none.1 hr1 u hu
      have hu1 : (GetByOAuth db userInfo.Provider userInfo.ID).2.users = db.users := by
        rw [hdb1]; rfl
      generalize (GetByOAuth db userInfo.Provider userInfo.ID).2 = db1 at h1 hu1
      have hdb2 : (GetByEmail db1 userInfo.Email).2 =
          db1.sent (.getUserByEmailQuery userInfo.Email) := by rw [GetByEmail_eq]
      have hu2 : (GetByEmail db1 userInfo.Email).2.users = db.users := by
        rw [hdb2, ← hu1]; rfl
      have h2 := invariant_of_same_rows db1 (GetByEmail db1 userInfo.Email).2
        (by rw [hdb2]; rfl) (by rw [hdb2]; rfl) h1
      cases hr2 : (GetByEmail db1 userInfo.Email).1 with
      | error e => exact h2
      | ok o2 =>
        cases o2 with
        | some emailUser =>
          simp only
          have hmem : emailUser ∈ (GetByEmail db1 userInfo.Email).2.users := by
            rw [hu2, ← hu1]
            rw [GetByEmail_eq] at hr2
            cases hf : db1.fault with
            | some err => simp [hf] at hr2
            | none =>
              simp only [hf, Except.ok.injEq] at hr2
              exact List.mem_of_find?_eq_some hr2
          rw [linkOAuthToUser_db]
          exact UpdateOAuth_link_invariant _ emailUser userInfo hmem h2 (by rw [hu2]; exact hnone)
        | none =>
          simp only
          rw [createOAuthUser_db]
          have h3 := invariant_of_same_rows (GetByEmail db1 userInfo.Email).2
            (generateUniqueUsername s userInfo.Name userInfo.Email
              (GetByEmail db1 userInfo.Email).2).2
            (generateUniqueUsername_users _ _ _ _) (generateUniqueUsername_nextID _ _ _ _) h2
          exact Create_newOAuthUser_invariant _ _ userInfo h3
            (by rw [generateUniqueUsername_users, hu2]; exact hnone)

theorem handleOAuthUser_preserves_invariant_witness :
    Demo.emailDB.wellFormed ∧ Demo.emailDB.linkedProviderInvariant ∧
      (handleOAuthUser Demo.service Demo.identity Demo.emailDB).2.linkedProviderInvariant ∧
      (handleOAuthUser Demo.service Demo.identity Demo.emailDB).2.wellFormed := by
  have hwf : Demo.emailDB.wellFormed := by
    unfold DB.wellFormed
    decide
  have hinv : Demo.emailDB.linkedProviderInvariant := by
    intro provider providerID
    have h2 : ∀ (id : UUID) (username email : String),
        matchesOAuth provider providerID (Demo.account id username email) = false := by
      intro id username email
      rfl
    simp only [Demo.emailDB, Demo.db, List.cons_append, List.nil_append, List.countP_cons,
      List.countP_nil, h2]
    split <;> simp
  exact ⟨hwf, hinv,
    handleOAuthUser_preserves_invariant Demo.service Demo.identity Demo.emailDB hwf hinv⟩

end LinkedProviders

/-! ## Theorems: length of generated usernames -/

section UsernameLength

open database database.UserRepository AuthService

/-- C15 (the code at the failing input). For the display name "Al" the base
candidate is "al"; it is free in the store, so `generateUniqueUsername` returns
it and `handleOAuthUser` creates the account with the two-character username
"al", which the registration rule (`min=3`) rejects. -/
theorem generateUniqueUsername_short_username :
    (generateUniqueUsername Demo.service "Al" "al@example.com" Demo.db).1 = "al" ∧
      ("al" : String).length = 2 ∧
      ValidateStructRegisterRequest Demo.libs (Demo.request "al" "al@example.com") =
        some (.validationErrors
          [{ Namespace := "RegisterRequest.Username", Field := "Username", Tag := "min",
             Param := "3" }]) ∧
      (handleOAuthUser Demo.service Demo.shortIdentity Demo.db).1 =
        .ok { User :=
                { ID := 3
                  Username := "al"
                  DisplayName := "Al"
                  Email := "al@example.com"
                  PasswordHash := ""
                  Bio := none
                  ProfileImageURL := none
                  OAuthProviders :=
                    some { Google := some { ID := "g-200", Email := "al@example.com" }
                           Facebook := none }
                  CreatedAt := 1000 }
              AccessToken := "token-al"
              TokenType := "Bearer"
              ExpiresIn := 86400 } := by
  refine ⟨?_, by decide, by decide, ?_⟩
  · rw [generateUniqueUsername_eq_of_first_free Demo.service "Al" "al@example.com" Demo.db 0
      (by decide) (by decide) (by decide)]
    decide
  · rw [handleOAuthUser_create_new Demo.service Demo.shortIdentity Demo.db 0
      (by decide) (by decide) (by decide) (by decide) (by decide)]
    decide

end UsernameLength

/-! ## Theorems: the HTTP handlers -/

section Handlers

open database database.UserRepository

/-- A message that starts with "validation failed: " is none of the messages the
handlers compare with. -/
theorem validation_failed_ne (t : String) :
    "validation failed: " ++ t ≠ "email already registered" ∧
      "validation failed: " ++ t ≠ "username already taken" ∧
      "validation failed: " ++ t ≠ "invalid email or password" := by
  refine ⟨?_, ?_, ?_⟩ <;>
  · intro h
    have h2 := congrArg String.data h
    rw [String.data_append] at h2
    have h3 := congrArg List.head? h2
    have h4 : ("validation failed: ".data ++ t.data).head? = some 'v' := rfl
    rw [h4] at h3
    revert h3
    decide

/-- C16 (the code at the failing inputs). When the service's field validation
fails, the error it returns wraps the validator's error, the type assertion in
`FormatValidationErrors` does not see through the wrapping, and the handlers
answer with status 500 and code REGISTRATION_FAILED (respectively LOGIN_FAILED)
instead of status 400 and VALIDATION_ERROR; the store is not touched. -/
theorem validation_failure_reported_as_generic (s : AuthService) (db : DB) :
    (∀ req verr, ValidateStructRegisterRequest s.libs req = some verr →
        AuthHandler.Register s (.ok req) db =
          ({ Status := 500
             Body := ErrorResponse "REGISTRATION_FAILED" "Failed to register user"
               (.text ("validation failed: " ++ verr.Error)) }, db)) ∧
      (∀ req verr, ValidateStructLoginRequest s.libs req = some verr →
        AuthHandler.Login s (.ok req) db =
          ({ Status := 500
             Body := ErrorResponse "LOGIN_FAILED" "Failed to login"
               (.text ("validation failed: " ++ verr.Error)) }, db)) := by
  constructor
  · intro req verr h
    have hreg : AuthService.Register s req db =
        (.error (.wrapError "validation failed: " verr), db) := by
      unfold AuthService.Register
      simp only [h]
    have hne := validation_failed_ne verr.Error
    unfold AuthHandler.Register
    simp only [hreg, FormatValidationErrors, List.length_nil, gt_iff_lt, Nat.lt_irrefl,
      if_false, Error.Error, hne.1, hne.2.1]
  · intro req verr h
    have hlog : AuthService.Login s req db =
        (.error (.wrapError "validation failed: " verr), db) := by
      unfold AuthService.Login
      simp only [h]
    have hne := validation_failed_ne verr.Error
    unfold AuthHandler.Login
    simp only [hlog, FormatValidationErrors, List.length_nil, gt_iff_lt, Nat.lt_irrefl,
      if_false, Error.Error, hne.2.2]

theorem validation_failure_reported_as_generic_witness :
    ValidateStructRegisterRequest Demo.service.libs Demo.invalidRequest =
        some (.validationErrors
          [{ Namespace := "RegisterRequest.Username", Field := "Username", Tag := "min",
             Param := "3" }]) ∧
      FormatValidationErrors Demo.libs
          (.validationErrors
            [{ Namespace := "RegisterRequest.Username", Field := "Username", Tag := "min",
               Param := "3" }]) =
        [("username", "Username must be at least 3 characters")] ∧
      (AuthHandler.Register Demo.service (.ok Demo.invalidRequest) Demo.db).1.Status = 500 ∧
      (AuthHandler.Login Demo.service (.ok Demo.invalidLogin) Demo.db).1.Status = 500 :=
  ⟨by decide, by decide,
    congrArg (fun r => r.1.Status)
      ((validation_failure_reported_as_generic Demo.service Demo.db).1 Demo.invalidRequest
        (.validationErrors
          [{ Namespace := "RegisterRequest.Username", Field := "Username", Tag := "min",
             Param := "3" }])
        (by decide)),
    congrArg (fun r => r.1.Status)
      ((validation_failure_reported_as_generic Demo.service Demo.db).2 Demo.invalidLogin
        (.validationErrors
          [{ Namespace := "LoginRequest.Password", Field := "Password", Tag := "required",
             Param := "" }])
        (by decide))⟩

theorem splitChars_of_not_mem (sep : Char) (l : List Char) (h : sep ∉ l) :
    splitChars sep l = [l] := by
  induction l with
  | nil => rfl
  | cons c cs ih =>
    have hc : c ≠ sep := fun hEq => h (by simp [hEq])
    have hcs : sep ∉ cs := fun hm => h (List.mem_cons_of_mem _ hm)
    simp [splitChars, hc, ih hcs]

theorem splitChars_append_sep (sep : Char) (a l : List Char) (h : sep ∉ a) :
    splitChars sep (a ++ sep :: l) = a :: splitChars sep l := by
  induction a with
  | nil => simp [splitChars]
  | cons c cs ih =>
    have hc : c ≠ sep := fun hEq => h (by simp [hEq])
    have hcs : sep ∉ cs := fun hm => h (List.mem_cons_of_mem _ hm)
    simp [splitChars, hc, ih hcs]

theorem Split_Bearer (t : String) (hsp : ' ' ∉ t.data) :
    Split ("Bearer " ++ t) ' ' = ["Bearer", t] := by
  have hdata : ("Bearer " ++ t).data = ['B', 'e', 'a', 'r', 'e', 'r'] ++ ' ' :: t.data := by
    rw [String.data_append]
    rfl
  unfold Split
  rw [hdata, splitChars_append_sep ' ' _ _ (by decide), splitChars_of_not_mem ' ' _ hsp]
  rfl

theorem stripBearer_Bearer (t : String) (hne : t ≠ "") :
    AuthHandler.stripBearer ("Bearer " ++ t) = t := by
  have hdata : ("Bearer " ++ t).data = "Bearer ".data ++ t.data := String.data_append _ _
  have ht : t.data ≠ [] := fun h => hne (String.ext h)
  have hlen : ("Bearer " ++ t).utf8ByteSize > 7 := by
    have h1 : ("Bearer " ++ t).utf8ByteSize = String.utf8Len ("Bearer " ++ t).data := rfl
    rw [h1, hdata, String.utf8Len_append]
    have h2 : String.utf8Len "Bearer ".data = 7 := by decide
    have h3 : String.utf8Len t.data ≠ 0 := fun h => ht (String.utf8Len_eq_zero.1 h)
    omega
  have htake : ("Bearer " ++ t).data.take 7 = "Bearer ".data := by
    rw [hdata]
    rfl
  have hdrop : ("Bearer " ++ t).data.drop 7 = t.data := by
    rw [hdata]
    rfl
  unfold AuthHandler.stripBearer
  rw [if_pos ⟨hlen, htake⟩, hdrop]

/-- C17. For a non-empty token `t` without a space character, the header value
"Bearer " followed by `t` is accepted by the prefix stripping of the validate
endpoint and by the header parsing of the JWT middleware, both of which hand
exactly `t` to `AuthService.ValidateToken`: each handler's answer is made from
the result of `AuthService.ValidateToken` on `t`. (The lower-casing of the
middleware is any function that agrees with ASCII lower-casing on ASCII
characters.) -/
theorem bearer_header_accepted (s : AuthService) (t : String) (db : DB) (hne : t ≠ "")
    (hsp : ' ' ∉ t.data)
    (hlow : ∀ c : Char, c.val < 128 → s.libs.unicodeToLower c = c.toLower) :
    AuthHandler.stripBearer ("Bearer " ++ t) = t ∧
      AuthMiddleware.bearerToken s.libs ("Bearer " ++ t) = some t ∧
      AuthHandler.ValidateToken s ("Bearer " ++ t) db =
        (match AuthService.ValidateToken s t db with
          | (.error err, db1) =>
            ({ Status := 401
               Body := ErrorResponse "INVALID_TOKEN" "Invalid or expired token"
                 (.text err.Error) }, db1)
          | (.ok user, db1) =>
            ({ Status := 200, Body := SuccessResponse "Token is valid" (.user user) }, db1)) ∧
      AuthMiddleware.JWTMiddleware s ("Bearer " ++ t) db =
        (match AuthService.ValidateToken s t db with
          | (.error err, db1) =>
            (.respond { Status := 401
                        Body := ErrorResponse "UNAUTHORIZED" "Invalid or expired token"
                          (.text err.Error) }, db1)
          | (.ok user, db1) => (.next user, db1)) := by
  have hstrip := stripBearer_Bearer t hne
  have hlower : ToLower s.libs.unicodeToLower "Bearer" = "bearer" := by
    simp only [ToLower, List.map]
    rw [hlow 'B' (by decide), hlow 'e' (by decide), hlow 'a' (by decide), hlow 'r' (by decide)]
    decide
  have hbearer : AuthMiddleware.bearerToken s.libs ("Bearer " ++ t) = some t := by
    unfold AuthMiddleware.bearerToken
    rw [Split_Bearer t hsp]
    simp [hlower]
  have hnonempty : "Bearer " ++ t ≠ "" := by
    intro h
    have h2 := congrArg String.data h
    rw [String.data_append] at h2
    exact absurd (congrArg List.length h2) (by simp [List.length_append])
  refine ⟨hstrip, hbearer, ?_, ?_⟩
  · unfold AuthHandler.ValidateToken
    rw [if_neg hnonempty, hstrip]
  · unfold AuthMiddleware.JWTMiddleware
    rw [if_neg hnonempty]
    simp only [hbearer]

theorem bearer_header_accepted_witness :
    ("token-johndoe" : String) ≠ "" ∧ ' ' ∉ ("token-johndoe" : String).data ∧
      AuthHandler.stripBearer ("Bearer " ++ "token-johndoe") = "token-johndoe" ∧
      AuthMiddleware.bearerToken Demo.service.libs ("Bearer " ++ "token-johndoe") =
        some "token-johndoe" :=
  ⟨by decide, by decide,
    (bearer_header_accepted Demo.service "token-johndoe" Demo.db (by decide) (by decide)
      (fun _ _ => rfl)).1,
    (bearer_header_accepted Demo.service "token-johndoe" Demo.db (by decide) (by decide)
      (fun _ _ => rfl)).2.1⟩

end Handlers

/-! ## Theorems: tokens -/

section Tokens

/-- C18. Token round trip: if the wire format reads back what it writes, then
for every account id, username and email, validating with the same manager (same
secret) the token issued at time `now`, at any time up to its expiry
`now + ttl`, returns the claims of the token, which carry that account id,
username and email. -/
theorem TokenManager_round_trip {Token : Type} (m : TokenManager Token)
    (hcodec : ∀ claims signature, m.decode (m.encode claims signature) = some (claims, signature))
    (now t : Time) (accountID : UUID) (username email : String) (ht : t ≤ now + m.ttl) :
    m.validate t (m.issue now accountID username email) =
      .ok { UserID := accountID
            Username := username
            Email := email
            IssuedAt := now
            ExpiresAt := now + m.ttl } := by
  have hnot : ¬ (now + m.ttl < t) := not_lt.mpr ht
  simp [TokenManager.validate, TokenManager.issue, hcodec, Time.After, Time.Add, hnot]

theorem TokenManager_round_trip_witness :
    Demo.tokenManager.validate 500 (Demo.tokenManager.issue 0 1 "johndoe" "john@example.com") =
      .ok { UserID := 1
            Username := "johndoe"
            Email := "john@example.com"
            IssuedAt := 0
            ExpiresAt := 0 + Demo.tokenManager.ttl } :=
  TokenManager_round_trip Demo.tokenManager (fun _ _ => rfl) 0 500 1 "johndoe"
    "john@example.com" (by decide)

end Tokens

/-! ## Theorems: the state map under several calls -/

section StateCalls

open AuthHandler

theorem validateState_eq_statements (m : OAuthStates) (n : String) (now : Time) :
    validateState m n now =
      match validateStateLookup m n with
      | none => (false, m)
      | some expiry => validateStateFinish m n expiry now := by
  unfold validateState validateStateLookup validateStateFinish
  cases mapGet m n <;> rfl

/-- C19 (as stated, refuted). Nothing in the handler serialises calls of
`validateState`: when the lookups of two calls for the same freshly issued nonce
both run before either call deletes the nonce, both calls return true. -/
theorem validateState_interleaved_both_true :
    validateStateInterleaved (GoogleLogin [] "abc" 0) "abc" 1 2 = (true, true, []) := by
  decide

theorem validateStateSequence_absent (m : OAuthStates) (n : String) (h : mapGet m n = none)
    (times : List Time) :
    validateStateSequence m n times = (times.map (fun _ => false), m) := by
  induction times with
  | nil => rfl
  | cons now times ih =>
    have hv : validateState m n now = (false, m) := by simp [validateState, h]
    simp only [validateStateSequence, hv, ih, List.map_cons]

/-- C19 (amended). When the calls of `validateState` for a freshly issued nonce
run one after the other, exactly one of them returns true: the first one, if it
is made no later than the expiry `t0 + 5 minutes`, and every later call returns
false. -/
theorem validateState_sequential_exactly_one (m : OAuthStates) (n : String) (t0 t1 : Time)
    (times : List Time) (h : t1 ≤ t0 + 5 * Minute) :
    (validateStateSequence (GoogleLogin m n t0) n (t1 :: times)).1 =
        true :: times.map (fun _ => false) ∧
      (validateStateSequence (FacebookLogin m n t0) n (t1 :: times)).1 =
        true :: times.map (fun _ => false) ∧
      ((validateStateSequence (GoogleLogin m n t0) n (t1 :: times)).1.count true = 1) := by
  have hnot : ¬ (t0 + 5 * Minute < t1) := not_lt.mpr h
  have hfirst : (validateState (GoogleLogin m n t0) n t1).1 = true := by
    simp [validateState, GoogleLogin, mapGet_mapSet_self, Time.After, Time.Add, hnot]
  have hgone := validateState_snd_lookup (GoogleLogin m n t0) n t1 hfirst
  have hseq : (validateStateSequence (GoogleLogin m n t0) n (t1 :: times)).1 =
      true :: times.map (fun _ => false) := by
    simp only [validateStateSequence, hfirst, validateStateSequence_absent _ n hgone times]
  refine ⟨hseq, hseq, ?_⟩
  rw [hseq, List.count_cons_self]
  have hzero : ∀ l : List Time, (l.map (fun _ => false)).count true = 0 := by
    intro l
    induction l with
    | nil => rfl
    | cons a l ih => simpa [List.count_cons] using ih
  rw [hzero]

theorem validateState_sequential_exactly_one_witness :
    (validateStateSequence (GoogleLogin [] "abc" 0) "abc" [1, 2, 3]).1 = [true, false, false] ∧
      (validateStateSequence (GoogleLogin [] "abc" 0) "abc" [1, 2, 3]).1.count true = 1 :=
  ⟨(validateState_sequential_exactly_one [] "abc" 0 1 [2, 3] (by decide)).1,
    (validateState_sequential_exactly_one [] "abc" 0 1 [2, 3] (by decide)).2.2⟩

/-- C20 (as stated, refuted). A call with a nonce that is not in the map returns
before the sweep: the expired entry "old" is still in the map afterwards. -/
theorem validateState_absent_no_sweep :
    ¬ (∀ (m : OAuthStates) (n : String) (now : Time),
        ∀ p ∈ (validateState m n now).2, ¬ p.2 < now) := by
  intro h
  exact h [("old", 1)] "missing" 100 ("old", 1) (by decide) (by decide)

/-- C20 (amended). After a call of `validateState` with a nonce that is in the
map, the map holds no entry whose expiry is before the current time; a call with
a nonce that is not in the map leaves the map as it is. -/
theorem validateState_sweeps_when_present (m : OAuthStates) (n : String) (now : Time) :
    (mapGet m n ≠ none → ∀ p ∈ (validateState m n now).2, ¬ p.2 < now) ∧
      (mapGet m n = none → (validateState m n now).2 = m) := by
  constructor
  · intro hpresent p hp
    unfold validateState at hp
    cases hget : mapGet m n with
    | none => exact absurd hget hpresent
    | some expiry =>
      simp only [hget] at hp
      have hp2 : p ∈ mapDelete (m.filter (fun p => !(Time.After now p.2))) n := by
        split at hp <;> exact hp
      unfold mapDelete at hp2
      have hp3 := (List.mem_filter.1 (List.mem_filter.1 hp2).1).2
      simpa [Time.After] using hp3
  · intro habsent
    simp [validateState, habsent]

theorem validateState_sweeps_when_present_witness :
    mapGet [("old", 1), ("new", 900), ("abc", 500)] "abc" ≠ none ∧
      ("old", 1) ∉ (validateState [("old", 1), ("new", 900), ("abc", 500)] "abc" 100).2 ∧
      mapGet [("old", 1)] "missing" = none ∧
      (validateState [("old", 1)] "missing" 100).2 = [("old", 1)] :=
  ⟨by decide,
    fun hp =>
      (validateState_sweeps_when_present [("old", 1), ("new", 900), ("abc", 500)] "abc" 100).1
        (by decide) ("old", 1) hp (by decide),
    by decide,
    (validateState_sweeps_when_present [("old", 1)] "missing" 100).2 (by decide)⟩

end StateCalls

/-! ## Theorems: what `validateState` keeps -/

section StateFrame

open AuthHandler

theorem mapGet_filter_of_keep (q : String × Time → Bool) (m : OAuthStates) (k : String)
    (e : Time) (hq : ∀ p : String × Time, p.1 = k → p.2 = e → q p = true)
    (h : mapGet m k = some e) : mapGet (m.filter q) k = some e := by
  induction m with
  | nil => simp [mapGet] at h
  | cons p m ih =>
    obtain ⟨pk, pe⟩ := p
    by_cases hk : k = pk
    · subst hk
      have he : pe = e := by simpa [mapGet, List.lookup] using h
      subst he
      have hkeep : q (k, pe) = true := hq (k, pe) rfl rfl
      simp [List.filter_cons, hkeep, mapGet, List.lookup]
    · have hbeq : (k == pk) = false := by simpa using hk
      have h2 : mapGet m k = some e := by simpa [mapGet, List.lookup, hbeq] using h
      have ih2 := ih h2
      by_cases hkeep : q (pk, pe) = true
      · simpa [List.filter_cons, hkeep, mapGet, List.lookup, hbeq] using ih2
      · simpa [List.filter_cons, hkeep] using ih2

/-- C23. `validateState` removes nothing it should keep. Every binding of a
nonce other than the one passed whose expiry is not before the current time is
still in the map afterwards, and a lookup of that nonce still gives the same
expiry; no binding is added (the map afterwards is a sublist of the map before);
and when the passed nonce is not in the map, the map is unchanged. -/
theorem validateState_frame (m : OAuthStates) (n : String) (now : Time) :
    (∀ p ∈ m, p.1 ≠ n → ¬ p.2 < now → p ∈ (validateState m n now).2) ∧
      (∀ k e, k ≠ n → mapGet m k = some e → ¬ e < now →
        mapGet (validateState m n now).2 k = some e) ∧
      List.Sublist (validateState m n now).2 m ∧
      (mapGet m n = none → (validateState m n now).2 = m) := by
  have hsnd : (validateState m n now).2 = m ∨
      (validateState m n now).2 =
        mapDelete (m.filter (fun p => !(Time.After now p.2))) n := by
    unfold validateState
    cases mapGet m n with
    | none => exact Or.inl rfl
    | some expiry =>
      right
      simp only
      split <;> rfl
  refine ⟨?_, ?_, ?_, ?_⟩
  · intro p hp hne hexp
    rcases hsnd with h | h
    · rw [h]; exact hp
    · rw [h]
      unfold mapDelete
      refine List.mem_filter.2 ⟨List.mem_filter.2 ⟨hp, ?_⟩, ?_⟩
      · simpa [Time.After] using not_lt.mp hexp
      · simpa using hne
  · intro k e hne hget hexp
    rcases hsnd with h | h
    · rw [h]; exact hget
    · rw [h]
      unfold mapDelete
      apply mapGet_filter_of_keep
      · intro p hp _
        simpa [hp] using hne
      · apply mapGet_filter_of_keep _ _ _ _ _ hget
        intro p _ hp
        simpa [Time.After, hp] using not_lt.mp hexp
  · rcases hsnd with h | h
    · rw [h]
    · rw [h]
      unfold mapDelete
      exact (List.filter_sublist _).trans (List.filter_sublist _)
  · intro habsent
    simp [validateState, habsent]

theorem validateState_frame_witness :
    ("new", 900) ∈ (validateState [("old", 1), ("new", 900), ("abc", 500)] "abc" 100).2 ∧
      mapGet (validateState [("old", 1), ("new", 900), ("abc", 500)] "abc" 100).2 "new" =
        some 900 ∧
      (validateState [("old", 1), ("new", 900)] "abc" 100).2 = [("old", 1), ("new", 900)] :=
  ⟨(validateState_frame [("old", 1), ("new", 900), ("abc", 500)] "abc" 100).1 ("new", 900)
      (by decide) (by decide) (by decide),
    (validateState_frame [("old", 1), ("new", 900), ("abc", 500)] "abc" 100).2.1 "new" 900
      (by decide) (by decide) (by decide),
    (validateState_frame [("old", 1), ("new", 900)] "abc" 100).2.2.2 (by decide)⟩

end StateFrame

/-! ## Theorems: the base username -/

section BaseUsername

open AuthService

theorem splitChars_head (sep : Char) (l : List Char) :
    (splitChars sep l).head? = some (l.takeWhile (fun c => c != sep)) := by
  induction l with
  | nil => rfl
  | cons c cs ih =>
    by_cases hc : c = sep
    · simp [splitChars, hc]
    · have hne : (c != sep) = true := by simpa using hc
      cases hs : splitChars sep cs with
      | nil => rw [hs] at ih; simp at ih
      | cons part parts =>
        rw [hs] at ih
        simp only [List.head?_cons, Option.some.injEq] at ih
        simp [splitChars, hc, hs, List.takeWhile_cons, hne, ih]

theorem Split_head (email : String) (sep : Char) :
    (Split email sep).headD "" = String.mk (email.data.takeWhile (fun c => c != sep)) := by
  unfold Split
  have h := splitChars_head sep email.data
  cases hs : splitChars sep email.data with
  | nil => rw [hs] at h; simp at h
  | cons part parts =>
    rw [hs] at h
    simp only [List.head?_cons, Option.some.injEq] at h
    simp [h]

/-- C21 (as stated, refuted). Only the space character is removed from the
display name, not all whitespace: for the display name "John<tab>Doe" the base
username keeps the tab, while the description with all whitespace removed gives
"johndoe". -/
theorem baseUsername_keeps_tab :
    baseUsername Demo.service "John\tDoe" "jd@example.com" = "john\tdoe" ∧
      baseUsernameSpec Char.isWhitespace Demo.libs.unicodeToLower "John\tDoe"
        "jd@example.com" = "johndoe" ∧
      baseUsername Demo.service "John\tDoe" "jd@example.com" ≠
        baseUsernameSpec Char.isWhitespace Demo.libs.unicodeToLower "John\tDoe"
          "jd@example.com" := by
  decide

/-- C21 (amended). For every display name and email, the base username that
`generateUniqueUsername` computes is the lower-cased display name with every
space character (U+0020, and no other whitespace) removed, or, when that is
empty, the part of the email before the first '@' (the whole email when it has
no '@'); in both cases with every '.' and '-' then removed. -/
theorem baseUsername_eq_spec (s : AuthService) (name email : String) :
    baseUsername s name email =
      baseUsernameSpec (fun c => c == ' ') s.libs.unicodeToLower name email := by
  unfold baseUsername baseUsernameSpec
  simp only [ToLower, ReplaceAll, Split_head]
  have hfilter : (fun c : Char => c != ' ') = (fun c : Char => !(c == ' ')) := rfl
  have hempty : ∀ l : List Char, (String.mk l = "") ↔ l = [] := by
    intro l
    constructor
    · intro h
      exact congrArg String.data h
    · intro h
      rw [h]
  rw [hfilter]
  by_cases hc : (name.data.filter (fun c => !(c == ' '))).map s.libs.unicodeToLower = []
  · rw [if_pos ((hempty _).2 hc), if_pos hc]
    simp only [List.filter_filter]
    congr 1
    apply List.filter_congr
    intro c _
    exact Bool.and_comm _ _
  · rw [if_neg (fun h => hc ((hempty _).1 h)), if_neg hc]
    simp only [List.filter_filter]
    congr 1
    apply List.filter_congr
    intro c _
    exact Bool.and_comm _ _

end BaseUsername

/-! ## Theorems: the cap on username lookups -/

section UsernameCap

open database database.UserRepository AuthService

theorem dbAfterChecks_log (base : String) (db : DB) (n : Nat) :
    (dbAfterChecks base db n).log =
      db.log ++ (List.range n).map
        (fun i => Query.checkUsernameExistsQuery (usernameCandidate base i)) := by
  induction n with
  | zero => simp [dbAfterChecks]
  | succ n ih =>
    rw [dbAfterChecks, UsernameExists_eq]
    simp only [DB.sent, ih, List.range_succ, List.map_append, List.map_cons, List.map_nil,
      List.append_assoc]

theorem dbAfterChecks_faults (base : String) (db : DB) (n : Nat) :
    (dbAfterChecks base db n).faults = db.faults.drop n := by
  induction n with
  | zero => simp [dbAfterChecks]
  | succ n ih =>
    rw [dbAfterChecks, UsernameExists_eq]
    simp only [DB.sent, ih, List.tail_drop]

/-- A check that meets a driver failure is not reported as "does not exist". -/
theorem storeReport_of_fault (base : String) (db : DB) (j : Nat) (e : Error)
    (h : db.faults[j]? = some (some e)) : storeReport base db j ≠ .ok false := by
  unfold storeReport
  rw [UsernameExists_eq]
  have hf : (dbAfterChecks base db j).fault = some e := by
    simp [DB.fault, dbAfterChecks_faults, List.head?_drop, h]
  simp [hf]

/-- The loop entered at candidate `i` when no candidate from there on is
reported as not existing: it runs into the cap and returns the fallback. -/
theorem generateUniqueUsernameLoop_all_busy (s : AuthService) (base : String) (db : DB) :
    ∀ (d i : Nat), i + d = 999 →
      (∀ j, i ≤ j → j < 1000 → storeReport base db j ≠ .ok false) →
      generateUniqueUsernameLoop s base (usernameCandidate base i) (i + 1)
          (dbAfterChecks base db i) =
        (base ++ s.libs.uuidNewString.take 8, dbAfterChecks base db 1000) := by
  intro d
  induction d with
  | zero =>
    intro i hi hbusy
    have hi2 : i = 999 := by omega
    subst hi2
    have h999 : storeReport base db 999 ≠ .ok false := hbusy 999 (Nat.le_refl _) (by omega)
    rw [generateUniqueUsernameLoop_cap s base _ _ _ h999 (by omega)]
    rfl
  | succ d ih =>
    intro i hi hbusy
    have hcur : storeReport base db i ≠ .ok false := hbusy i (Nat.le_refl i) (by omega)
    rw [generateUniqueUsernameLoop_next s base _ _ _ hcur (by omega)]
    have hcand : Sprintf_s_d base (i + 1) = usernameCandidate base (i + 1) := by
      simp [usernameCandidate]
    rw [hcand]
    exact ih (i + 1) (by omega) (fun j h1 h2 => hbusy j (by omega) h2)

theorem generateUniqueUsername_all_busy (s : AuthService) (name email : String) (db : DB)
    (hbusy : ∀ j, j < 1000 → storeReport (baseUsername s name email) db j ≠ .ok false) :
    generateUniqueUsername s name email db =
      (baseUsername s name email ++ s.libs.uuidNewString.take 8,
        dbAfterChecks (baseUsername s name email) db 1000) :=
  generateUniqueUsernameLoop_all_busy s (baseUsername s name email) db 999 0 (by omega)
    (fun j _ hj => hbusy j hj)

/-- The loop makes between 1 and 1000 existence checks and nothing else. -/
theorem generateUniqueUsername_checks (s : AuthService) (name email : String) (db : DB) :
    ∃ n, 1 ≤ n ∧ n ≤ 1000 ∧
      (generateUniqueUsername s name email db).2 =
        dbAfterChecks (baseUsername s name email) db n := by
  by_cases h : ∃ k, k < 1000 ∧ storeReport (baseUsername s name email) db k = .ok false
  · classical
    have hk := Nat.find_spec h
    have hmin : ∀ j, j < Nat.find h →
        storeReport (baseUsername s name email) db j ≠ .ok false := by
      intro j hj hfree
      exact Nat.find_min h hj ⟨Nat.lt_trans hj hk.1, hfree⟩
    refine ⟨Nat.find h + 1, by omega, by omega, ?_⟩
    rw [generateUniqueUsername_eq_of_first_free s name email db (Nat.find h) hk.1 hk.2 hmin]
  · refine ⟨1000, by omega, by omega, ?_⟩
    rw [generateUniqueUsername_all_busy s name email db
      (fun j hj hfree => h ⟨j, hj, hfree⟩)]

/-- C22. `generateUniqueUsername` is a total function: it returns for every
behaviour of the store. On the way it sends between 1 and 1000 statements, all of
them username-existence checks of the candidates base, base1, ..., in that
order, and changes no row. When none of the 1000 checks reports "does not exist"
(the candidate exists, or the check fails), the result is the base candidate
followed by the first 8 characters of the fresh UUID, and the statements sent
are exactly the 1000 checks of the candidates: the returned value itself is not
checked. -/
theorem generateUniqueUsername_capped (s : AuthService) (name email : String) (db : DB) :
    (∃ n, 1 ≤ n ∧ n ≤ 1000 ∧
        (generateUniqueUsername s name email db).2.log =
          db.log ++ (List.range n).map (fun i =>
            Query.checkUsernameExistsQuery
              (usernameCandidate (baseUsername s name email) i)) ∧
        (generateUniqueUsername s name email db).2.users = db.users) ∧
      ((∀ j, j < 1000 → storeReport (baseUsername s name email) db j ≠ .ok false) →
        (generateUniqueUsername s name email db).1 =
            baseUsername s name email ++ s.libs.uuidNewString.take 8 ∧
          (generateUniqueUsername s name email db).2.log =
            db.log ++ (List.range 1000).map (fun i =>
              Query.checkUsernameExistsQuery
                (usernameCandidate (baseUsername s name email) i)) ∧
          (8 ≤ s.libs.uuidNewString.length → (s.libs.uuidNewString.take 8).length = 8)) := by
  constructor
  · obtain ⟨n, h1, h2, hdb⟩ := generateUniqueUsername_checks s name email db
    exact ⟨n, h1, h2, by rw [hdb, dbAfterChecks_log], generateUniqueUsername_users s name email db⟩
  · intro hbusy
    have h := generateUniqueUsername_all_busy s name email db hbusy
    refine ⟨by rw [h], by rw [h, dbAfterChecks_log], ?_⟩
    intro hlen
    rw [String.take_eq]
    show (List.take 8 s.libs.uuidNewString.data).length = 8
    rw [List.length_take]
    exact Nat.min_eq_left hlen

theorem generateUniqueUsername_capped_witness :
    (generateUniqueUsername Demo.service "John Doe" "jd@example.com"
        (Demo.dbWithFaults (List.replicate 1000 (some Demo.connReset)))).1 =
      "johndoe123e4567" ∧
      ("123e4567" : String).length = 8 := by
  have hbusy : ∀ j, j < 1000 →
      storeReport (baseUsername Demo.service "John Doe" "jd@example.com")
        (Demo.dbWithFaults (List.replicate 1000 (some Demo.connReset))) j ≠ .ok false := by
    intro j hj
    apply storeReport_of_fault _ _ j Demo.connReset
    show (List.replicate 1000 (some Demo.connReset))[j]? = some (some Demo.connReset)
    rw [List.getElem?_replicate, if_pos hj]
  have h := (generateUniqueUsername_capped Demo.service "John Doe" "jd@example.com"
    (Demo.dbWithFaults (List.replicate 1000 (some Demo.connReset)))).2 hbusy
  refine ⟨?_, by decide⟩
  rw [h.1]
  decide

end UsernameCap
